import Mathlib

/-!
Shallow embedding of the monitorix monitoring core
(src/backend/health_checks.py, src/backend/alert_rules.py,
src/backend/scheduler.py, src/backend/notification_channels.py,
src/webhooks.py) together with proofs about the scheduler and
alert-evaluation pipeline.

Conventions of the embedding:
* machine floats become `Rat`; timestamps become `Nat` seconds
  (`datetime.utcnow()` is passed in as an explicit `now` argument,
  `timedelta(minutes = m)` is `60 * m` seconds);
* database rows become Lean structures, a SQLAlchemy session becomes an
  explicit `Db` record of row lists threaded through each function;
* every external interaction (Proxmox call, health probe, subprocess,
  e-mail, webhook POST, chat POST, websocket broadcast) is either an
  oracle argument describing what the outside world did, or an `Eff`
  event appended to a trace that the function returns;
* Python truthiness on optional integers (`if node_id:`) and on optional
  strings (`if script:`) is modelled explicitly (`idTruthy`, `strTruthy`);
  a nullable JSON list column is modelled as `List String` because Python
  treats `None` and `[]` identically (both falsy) in every branch below.
-/

set_option linter.unusedVariables false
set_option linter.unreachableTactic false
set_option linter.unusedTactic false

namespace Monitorix

/-! ## Health checker (src/backend/health_checks.py) -/

/-- Exact rational subtraction, written with `mkRat` so that the kernel
can evaluate it on concrete inputs (the library subtraction on `Rat` is
irreducible); proved equal to `a - b` in `ratSub_eq` below. -/
def ratSub (a b : Rat) : Rat :=
  mkRat (a.num * (b.den : Int) - b.num * (a.den : Int)) (a.den * b.den)

/-- Result dictionary returned by every `HealthChecker` branch. -/
structure CheckResult where
  status : String
  response_time : Option Rat
  status_code : Option Nat
  error_message : Option String
deriving Repr, DecidableEq

/-- What the HTTP transport did in `HealthChecker.check_http`:
a response arrived (with status code and elapsed milliseconds),
the request timed out (`httpx.TimeoutException`), or some other
exception was raised after `elapsed_ms` milliseconds. -/
inductive HttpOutcome where
  | response (status_code : Nat) (elapsed_ms : Rat)
  | timeout
  | failure (msg : String) (elapsed_ms : Rat)
deriving Repr, DecidableEq

/-- What `socket.connect_ex` did in `HealthChecker.check_port`:
returned an error number (0 = connected) after `elapsed_ms`, or raised. -/
inductive PortOutcome where
  | connected (errno : Nat) (elapsed_ms : Rat)
  | failure (msg : String)
deriving Repr, DecidableEq

/-- What the ping subprocess did in `HealthChecker.check_ping`:
ran to completion (with exit code and the round-trip time parsed from its
output, if any), hit `subprocess.TimeoutExpired`, or raised. -/
inductive PingOutcome where
  | ran (returncode : Nat) (parsed_time : Option Rat)
  | timeout
  | failure (msg : String)
deriving Repr, DecidableEq

/-- What the subprocess did in `HealthChecker.check_custom`:
ran to completion (exit code, captured stderr, elapsed milliseconds),
hit `subprocess.TimeoutExpired`, or raised after `elapsed_ms`. -/
inductive ProcOutcome where
  | ran (returncode : Nat) (stderr : String) (elapsed_ms : Rat)
  | timeout
  | failure (msg : String) (elapsed_ms : Rat)
deriving Repr, DecidableEq

/-- Python truthiness of an `Optional[str]`: `None` and `""` are falsy. -/
def strTruthy (s : Option String) : Bool :=
  match s with
  | none => false
  | some t => t != ""

/-- `HealthChecker.check_http(url, timeout, expected_status)`. -/
def check_http (url : String) (timeout : Nat) (expected_status : Nat)
    (o : HttpOutcome) : CheckResult :=
  match o with
  | .response code elapsed =>
    if code == expected_status then
      { status := "up", response_time := some elapsed,
        status_code := some code, error_message := none }
    else
      { status := "warning", response_time := some elapsed,
        status_code := some code,
        error_message := some ("Expected status " ++ toString expected_status
          ++ ", got " ++ toString code) }
  | .timeout =>
    { status := "down", response_time := none, status_code := none,
      error_message := some ("Request timeout after " ++ toString timeout
        ++ " seconds") }
  | .failure msg elapsed =>
    { status := "down",
      response_time := if elapsed < ((timeout * 1000 : Nat) : Rat) then some elapsed else none,
      status_code := none, error_message := some msg }

/-- `HealthChecker.check_port(host, port, timeout)`. -/
def check_port (host : String) (port : Nat) (timeout : Nat)
    (o : PortOutcome) : CheckResult :=
  match o with
  | .connected errno elapsed =>
    if errno == 0 then
      { status := "up", response_time := some elapsed,
        status_code := none, error_message := none }
    else
      { status := "down", response_time := none, status_code := none,
        error_message := some ("Port " ++ toString port ++ " is not open") }
  | .failure msg =>
    { status := "down", response_time := none, status_code := none,
      error_message := some msg }

/-- `HealthChecker.check_ping(host, timeout, count)`. -/
def check_ping (host : String) (timeout : Nat) (o : PingOutcome) : CheckResult :=
  match o with
  | .ran rc parsed =>
    if rc == 0 then
      { status := "up", response_time := parsed,
        status_code := none, error_message := none }
    else
      { status := "down", response_time := none, status_code := none,
        error_message := some "Host did not respond to ping" }
  | .timeout =>
    { status := "down", response_time := none, status_code := none,
      error_message := some ("Ping timeout after " ++ toString timeout
        ++ " seconds") }
  | .failure msg =>
    { status := "down", response_time := none, status_code := none,
      error_message := some msg }

/-- `HealthChecker.check_custom(command, script, timeout)`.  The script
branch (taken when `script` is truthy) and the command branch differ only
in the fallback error text; `result.stderr or fallback` keeps the
fallback when stderr is empty. -/
def check_custom (command : String) (script : Option String) (timeout : Nat)
    (o : ProcOutcome) : CheckResult :=
  if strTruthy script then
    match o with
    | .ran rc stderr elapsed =>
      if rc == 0 then
        { status := "up", response_time := some elapsed,
          status_code := none, error_message := none }
      else
        { status := "down", response_time := some elapsed, status_code := none,
          error_message := some (if stderr != "" then stderr
            else "Script exited with code " ++ toString rc) }
    | .timeout =>
      { status := "down", response_time := none, status_code := none,
        error_message := some ("Custom check timeout after " ++ toString timeout
          ++ " seconds") }
    | .failure msg elapsed =>
      { status := "down",
        response_time := if elapsed < ((timeout * 1000 : Nat) : Rat) then some elapsed else none,
        status_code := none, error_message := some msg }
  else
    match o with
    | .ran rc stderr elapsed =>
      if rc == 0 then
        { status := "up", response_time := some elapsed,
          status_code := none, error_message := none }
      else
        { status := "down", response_time := some elapsed, status_code := none,
          error_message := some (if stderr != "" then stderr
            else "Command exited with code " ++ toString rc) }
    | .timeout =>
      { status := "down", response_time := none, status_code := none,
        error_message := some ("Custom check timeout after " ++ toString timeout
          ++ " seconds") }
    | .failure msg elapsed =>
      { status := "down",
        response_time := if elapsed < ((timeout * 1000 : Nat) : Rat) then some elapsed else none,
        status_code := none, error_message := some msg }

/-- One oracle per transport kind; `check_service` consumes the one for
the branch it takes. -/
structure World where
  http : HttpOutcome
  port : PortOutcome
  ping : PingOutcome
  proc : ProcOutcome
deriving Repr, DecidableEq

/-- `HealthChecker.check_service(service_type, target, port, timeout,
expected_status, custom_command, custom_script)`. -/
def check_service (service_type : String) (target : String) (port : Option Nat)
    (timeout : Nat) (expected_status : Nat)
    (custom_command : Option String) (custom_script : Option String)
    (w : World) : CheckResult :=
  if service_type == "custom" then
    if !strTruthy custom_command && !strTruthy custom_script then
      { status := "down", response_time := none, status_code := none,
        error_message := some "Custom command or script required for custom health checks" }
    else
      check_custom (custom_command.getD "") custom_script timeout w.proc
  else if service_type == "http" || service_type == "https" then
    check_http target timeout expected_status w.http
  else if service_type == "ping" then
    check_ping target timeout w.ping
  else if service_type == "port" then
    match port with
    | none =>
      { status := "down", response_time := none, status_code := none,
        error_message := some "Port number required for port checks" }
    | some p => check_port target p timeout w.port
  else
    { status := "down", response_time := none, status_code := none,
      error_message := some ("Unknown service type: " ++ service_type) }

/-- Whether the branch `check_service` takes observes a transport or
process error (timeout, raised exception, refused connection, or a
nonzero exit code of the probe process). -/
def transportError (service_type : String) (port : Option Nat)
    (custom_command : Option String) (custom_script : Option String)
    (w : World) : Bool :=
  if service_type == "custom" then
    if !strTruthy custom_command && !strTruthy custom_script then false
    else
      match w.proc with
      | .ran rc _ _ => rc != 0
      | .timeout => true
      | .failure _ _ => true
  else if service_type == "http" || service_type == "https" then
    match w.http with
    | .response _ _ => false
    | .timeout => true
    | .failure _ _ => true
  else if service_type == "ping" then
    match w.ping with
    | .ran rc _ => rc != 0
    | .timeout => true
    | .failure _ => true
  else if service_type == "port" then
    match port with
    | none => false
    | some _ =>
      match w.port with
      | .connected errno _ => errno != 0
      | .failure _ => true
  else false

/-! ## Data model (src/backend/models.py) -/

/-- `models.Node`. -/
structure Node where
  id : Nat
  name : String
  url : String
  username : String
  token : String
  is_active : Bool
  maintenance_mode : Bool
  status : String
  last_check : Option Nat
deriving Repr, DecidableEq

/-- `models.VM`. -/
structure VM where
  id : Nat
  node_id : Nat
  vmid : Nat
  name : String
  status : String
  cpu_usage : Rat
  memory_usage : Rat
  memory_total : Rat
  disk_usage : Rat
  disk_total : Rat
  uptime : Rat
  last_check : Option Nat
deriving Repr, DecidableEq

/-- `models.Service`. -/
structure Service where
  id : Nat
  vm_id : Option Nat
  name : String
  type : String
  target : String
  custom_command : Option String
  custom_script : Option String
  port : Option Nat
  check_interval : Nat
  timeout : Nat
  is_active : Bool
  maintenance_mode : Bool
  expected_status : Nat
deriving Repr, DecidableEq

/-- `models.HealthCheck` (one row per probe execution). -/
structure HealthCheck where
  id : Nat
  service_id : Nat
  status : String
  response_time : Option Rat
  status_code : Option Nat
  error_message : Option String
  checked_at : Nat
deriving Repr, DecidableEq

/-- `models.Metric` (the autoincrement primary key is not modelled,
nothing reads it back). -/
structure Metric where
  node_id : Option Nat
  vm_id : Option Nat
  metric_type : String
  value : Rat
  unit : String
  recorded_at : Nat
deriving Repr, DecidableEq

/-- `models.Alert` (the nullable `user_id` column is never set by the
monitoring core and is not modelled). -/
structure Alert where
  id : Nat
  alert_type : String
  severity : String
  title : String
  message : String
  node_id : Option Nat
  vm_id : Option Nat
  service_id : Option Nat
  is_resolved : Bool
  resolved_at : Option Nat
  created_at : Nat
deriving Repr, DecidableEq

/-- `models.AlertRule`; `last_triggered` is a timestamp in seconds. -/
structure AlertRule where
  id : Nat
  name : String
  metric_type : String
  operator : String
  threshold : Rat
  severity : String
  node_id : Option Nat
  vm_id : Option Nat
  service_id : Option Nat
  cooldown_minutes : Nat
  is_active : Bool
  last_triggered : Option Nat
deriving Repr, DecidableEq

/-- `models.Webhook` (`headers` is opaque configuration, not modelled). -/
structure Webhook where
  id : Nat
  name : String
  url : String
  method : String
  alert_types : List String
  is_active : Bool
deriving Repr, DecidableEq

/-- `models.NotificationChannel`. -/
structure NotificationChannel where
  id : Nat
  name : String
  type : String
  webhook_url : String
  alert_types : List String
  severity_filter : List String
  is_active : Bool
deriving Repr, DecidableEq

/-- The relational store, as the typed-record interface the core uses.
`next_alert_id`, `next_vm_id`, `next_hc_id` model the autoincrement
primary-key counters assigned on insert. -/
structure Db where
  nodes : List Node
  vms : List VM
  services : List Service
  alerts : List Alert
  alert_rules : List AlertRule
  health_checks : List HealthCheck
  metrics : List Metric
  webhooks : List Webhook
  channels : List NotificationChannel
  next_alert_id : Nat
  next_vm_id : Nat
  next_hc_id : Nat
deriving Repr, DecidableEq

/-- Observable effects on the outside world: Proxmox API calls, health
probes aside (those are oracles), outbound notification attempts and
websocket broadcasts.  E-mail delivery further depends on SMTP settings
(`email_notifications.py`); the event records the dispatch call. -/
inductive Eff where
  | testConnection (node_id : Nat)
  | getNodeStatus (node_id : Nat)
  | getVms (node_id : Nat)
  | email (alert_type : String) (severity : String) (title : String)
  | webhookPost (webhook_id : Nat) (alert_type : String)
  | chatPost (channel_id : Nat) (channel_type : String)
      (alert_type : String) (severity : String)
  | broadcast (event_type : String)
deriving Repr, DecidableEq

/-! ## Notification fanout (src/webhooks.py, src/backend/notification_channels.py,
src/backend/email_notifications.py) -/

/-- `email_notifications.send_alert_notification`: the dispatch attempt
made by the callers (delivery itself is gated on SMTP configuration). -/
def send_alert_notification (alert_type : String) (severity : String)
    (title : String) : List Eff :=
  [Eff.email alert_type severity title]

/-- `webhooks.send_alert_webhooks`: loop over active webhooks, skip those
whose non-empty `alert_types` list does not contain this alert's type,
POST to the rest (`send_webhook` re-checks `is_active`, already true). -/
def send_alert_webhooks (db : Db) (alert_type : String) : List Eff :=
  (db.webhooks.filter (fun w => w.is_active)).flatMap (fun w =>
    if w.alert_types != [] && !(w.alert_types.contains alert_type) then []
    else [Eff.webhookPost w.id alert_type])

/-- Body of the loop in `notification_channels.send_alert_notifications`
for one channel: the two allow-list guards, then dispatch by channel
type (`send_slack_notification` / `send_discord_notification` both
re-check `is_active`, already true, and POST). -/
def channelDispatch (alert_type : String) (severity : String)
    (ch : NotificationChannel) : List Eff :=
  if ch.alert_types != [] && !(ch.alert_types.contains alert_type) then []
  else if ch.severity_filter != [] && !(ch.severity_filter.contains severity) then []
  else if ch.type == "slack" then [Eff.chatPost ch.id "slack" alert_type severity]
  else if ch.type == "discord" then [Eff.chatPost ch.id "discord" alert_type severity]
  else []

/-- `notification_channels.send_alert_notifications`. -/
def send_alert_notifications (db : Db) (alert_type : String)
    (severity : String) : List Eff :=
  (db.channels.filter (fun c => c.is_active)).flatMap
    (channelDispatch alert_type severity)

/-! ## Alert rule engine (src/backend/alert_rules.py) -/

/-- `alert_rules.evaluate_rule`. -/
def evaluate_rule (rule : AlertRule) (metric_value : Rat) : Bool :=
  if rule.operator == ">" then decide (metric_value > rule.threshold)
  else if rule.operator == "<" then decide (metric_value < rule.threshold)
  else if rule.operator == ">=" then decide (metric_value ≥ rule.threshold)
  else if rule.operator == "<=" then decide (metric_value ≤ rule.threshold)
  else if rule.operator == "==" then
    decide (|ratSub metric_value rule.threshold| < mkRat 1 100)
  else false

/-- `alert_rules.check_cooldown`; `datetime.utcnow()` is the `now`
argument and `timedelta(minutes = c)` is `60 * c` seconds.  A null
`last_triggered` is falsy, so the rule is always eligible. -/
def check_cooldown (now : Nat) (rule : AlertRule) : Bool :=
  match rule.last_triggered with
  | none => true
  | some t => decide (now > t + 60 * rule.cooldown_minutes)

/-- Python truthiness of an `Optional[int]`: `None` and `0` are falsy. -/
def idTruthy (o : Option Nat) : Bool :=
  match o with
  | none => false
  | some n => n != 0

/-- `node_id if node_id else None`, as used for the dedup query. -/
def normId (o : Option Nat) : Option Nat :=
  if idTruthy o then o else none

/-- One scope dimension of the rule query in `evaluate_alert_rules`:
with a truthy given id, `(AlertRule.node_id == node_id) | (AlertRule.node_id.is_(None))`;
otherwise only `AlertRule.node_id.is_(None)`. -/
def scope_ok (given : Option Nat) (rule_field : Option Nat) : Bool :=
  if idTruthy given then rule_field == given || rule_field == none
  else rule_field == none

/-- The rule-selection query of `evaluate_alert_rules` (lines 82-111):
active rules of this metric type, each scope dimension filtered. -/
def selectRules (db : Db) (metric_type : String)
    (node_id vm_id service_id : Option Nat) : List AlertRule :=
  db.alert_rules.filter (fun r =>
    r.is_active && r.metric_type == metric_type &&
    scope_ok node_id r.node_id && scope_ok vm_id r.vm_id &&
    scope_ok service_id r.service_id)

/-- The dedup query of `evaluate_alert_rules` (lines 121-127): first
unresolved `high_usage` alert with the same normalised scope tuple. -/
def findExistingHighUsage (alerts : List Alert)
    (node_id vm_id service_id : Option Nat) : Option Alert :=
  alerts.find? (fun a =>
    a.alert_type == "high_usage" && a.is_resolved == false &&
    a.node_id == normId node_id && a.vm_id == normId vm_id &&
    a.service_id == normId service_id)

/-- Rendering of Python's two-decimal percent formatting (`"%.2f"`-style)
for the alert message: the value rounded (half up) to two decimal places;
`⌊q * 100 + 1/2⌋` computed exactly on the numerator and denominator. -/
def fmt2 (q : Rat) : String :=
  let c : Int := Int.fdiv (200 * q.num + (q.den : Int)) (2 * (q.den : Int))
  let sign := if c < 0 then "-" else ""
  let n := c.natAbs
  let f := n % 100
  sign ++ toString (n / 100) ++ "." ++ (if f < 10 then "0" else "") ++ toString f

/-- `f"{rule.name} - {metric_type.upper()} threshold exceeded"`. -/
def ruleAlertTitle (rule : AlertRule) (metric_type : String) : String :=
  rule.name ++ " - " ++ metric_type.toUpper ++ " threshold exceeded"

/-- The alert message built in `evaluate_alert_rules` (lines 152-161). -/
def ruleAlertMessage (rule : AlertRule) (metric_type : String)
    (metric_value : Rat)
    (node_name vm_name service_name : Option String) : String :=
  let base := metric_type.toUpper ++ " is " ++ fmt2 metric_value
    ++ "% (threshold: " ++ rule.operator ++ " " ++ toString rule.threshold ++ "%)"
  let base := match node_name with
    | some n => base ++ " on node " ++ n
    | none => base
  let base := match vm_name with
    | some n => base ++ " (VM: " ++ n ++ ")"
    | none => base
  match service_name with
  | some n => base ++ " (Service: " ++ n ++ ")"
  | none => base

/-- Name lookup `if node_id: node = db.query(Node)...; if node: ...`. -/
def lookupNodeName (db : Db) (node_id : Option Nat) : Option String :=
  if idTruthy node_id then
    match db.nodes.find? (fun n => some n.id == node_id) with
    | some n => some n.name
    | none => none
  else none

/-- Name lookup for the optional VM scope. -/
def lookupVmName (db : Db) (vm_id : Option Nat) : Option String :=
  if idTruthy vm_id then
    match db.vms.find? (fun v => some v.id == vm_id) with
    | some v => some v.name
    | none => none
  else none

/-- Name lookup for the optional service scope. -/
def lookupServiceName (db : Db) (service_id : Option Nat) : Option String :=
  if idTruthy service_id then
    match db.services.find? (fun s => some s.id == service_id) with
    | some s => some s.name
    | none => none
  else none

/-- Body of the rule loop in `evaluate_alert_rules` (lines 113-233) for
one rule: cooldown guard, condition guard, dedup guard, then create the
alert, stamp `last_triggered`, and fan out notifications and the
websocket broadcast (`bc` is whether `_broadcast_update` is set). -/
def processRule (metric_type : String) (metric_value : Rat)
    (node_id vm_id service_id : Option Nat) (now : Nat) (bc : Bool)
    (acc : Db × List Eff) (rule : AlertRule) : Db × List Eff :=
  let db := acc.1
  if !(check_cooldown now rule) then acc
  else if !(evaluate_rule rule metric_value) then acc
  else if (findExistingHighUsage db.alerts node_id vm_id service_id).isSome then acc
  else
    let node_name := lookupNodeName db node_id
    let vm_name := lookupVmName db vm_id
    let service_name := lookupServiceName db service_id
    let title := ruleAlertTitle rule metric_type
    let message := ruleAlertMessage rule metric_type metric_value
      node_name vm_name service_name
    let alert : Alert :=
      { id := db.next_alert_id, alert_type := "high_usage",
        severity := rule.severity, title := title, message := message,
        node_id := node_id, vm_id := vm_id, service_id := service_id,
        is_resolved := false, resolved_at := none, created_at := now }
    let db1 : Db := { db with
      alerts := db.alerts ++ [alert],
      next_alert_id := db.next_alert_id + 1 }
    let db2 : Db := { db1 with alert_rules := db1.alert_rules.map (fun r =>
      if r.id == rule.id then { r with last_triggered := some now } else r) }
    let effs := send_alert_notification "high_usage" rule.severity title
      ++ send_alert_webhooks db2 "high_usage"
      ++ send_alert_notifications db2 "high_usage" rule.severity
      ++ (if bc then [Eff.broadcast "alert"] else [])
    (db2, acc.2 ++ effs)

/-- `alert_rules.evaluate_alert_rules`: select the applicable rules once,
then run the loop body over them, threading the session state. -/
def evaluate_alert_rules (db : Db) (metric_type : String) (metric_value : Rat)
    (node_id vm_id service_id : Option Nat) (now : Nat) (bc : Bool) :
    Db × List Eff :=
  (selectRules db metric_type node_id vm_id service_id).foldl
    (processRule metric_type metric_value node_id vm_id service_id now bc)
    (db, [])

/-! ## Scheduler (src/backend/scheduler.py) -/

/-- The dictionary returned by `ProxmoxClient.get_node_status` in the
success case (`status` from its "status" key, usage figures optional). -/
structure NodeStatusData where
  status : String
  cpu_usage : Option Rat
  memory_usage : Option Rat
  disk_usage : Option Rat
deriving Repr, DecidableEq

/-- What the Proxmox endpoint did during `check_node`:
`test_connection()` returned false; or it succeeded and
`get_node_status()` returned data; or an exception was raised
(caught by the outer handler, which marks the node `error`). -/
inductive NodeOutcome where
  | connFail
  | statusOk (st : NodeStatusData)
  | statusFail (msg : String)
deriving Repr, DecidableEq

/-- One VM entry of `ProxmoxClient.get_vms()`. -/
structure VmData where
  vmid : Nat
  name : Option String
  status : Option String
  cpu_usage : Option Rat
  memory_usage : Option Rat
  memory_total : Option Rat
  disk_usage : Option Rat
  disk_total : Option Rat
  uptime : Option Rat
deriving Repr, DecidableEq

/-- What the Proxmox endpoint did during `sync_vms`:
`get_vms()` returned a list, or raised (caught and logged). -/
inductive VmsOutcome where
  | ok (vms : List VmData)
  | failure (msg : String)
deriving Repr, DecidableEq

/-- Persisting a mutated node object: replace the row with its id. -/
def Db.updateNode (db : Db) (n : Node) : Db :=
  { db with nodes := db.nodes.map (fun x => if x.id == n.id then n else x) }

/-- The `node_down` Alert built in `check_node` (lines 52-58). -/
def nodeDownAlert (aid : Nat) (node : Node) (now : Nat) : Alert :=
  { id := aid, alert_type := "node_down", severity := "critical",
    title := "Node " ++ node.name ++ " is offline",
    message := "Node " ++ node.name ++ " is no longer responding",
    node_id := some node.id, vm_id := none, service_id := none,
    is_resolved := false, resolved_at := none, created_at := now }

/-- The metrics-and-rules block of `check_node` for an online node
(lines 100-152): append the three node metrics and feed each present
usage figure to the rule engine. -/
def nodeMetricsAndRules (db : Db) (node : Node) (st : NodeStatusData)
    (now : Nat) (bc : Bool) : Db × List Eff :=
  let db : Db := { db with metrics := db.metrics ++
    [ { node_id := some node.id, vm_id := none, metric_type := "cpu",
        value := st.cpu_usage.getD 0, unit := "percent", recorded_at := now },
      { node_id := some node.id, vm_id := none, metric_type := "memory",
        value := st.memory_usage.getD 0, unit := "percent", recorded_at := now },
      { node_id := some node.id, vm_id := none, metric_type := "disk",
        value := st.disk_usage.getD 0, unit := "percent", recorded_at := now } ] }
  let r1 := if st.cpu_usage.isSome then
      evaluate_alert_rules db "cpu" (st.cpu_usage.getD 0)
        (some node.id) none none now bc
    else (db, [])
  let r2 := if st.memory_usage.isSome then
      evaluate_alert_rules r1.1 "memory" (st.memory_usage.getD 0)
        (some node.id) none none now bc
    else (r1.1, [])
  let r3 := if st.disk_usage.isSome then
      evaluate_alert_rules r2.1 "disk" (st.disk_usage.getD 0)
        (some node.id) none none now bc
    else (r2.1, [])
  (r3.1, r1.2 ++ r2.2 ++ r3.2)

/-- `scheduler.check_node`: skip maintenance nodes; on connection failure
transition to `offline` and, only if the node was `online`, create a
`node_down` alert and fan out notifications; on success store the status,
append the three node metrics and feed them to the rule engine when the
node reports `online`, then broadcast; on an exception mark `error`.
Returns the session state, the effect trace and the result status. -/
def check_node (db : Db) (node : Node) (o : NodeOutcome) (now : Nat)
    (bc : Bool) : Db × List Eff × String :=
  if node.maintenance_mode then (db, [], "maintenance")
  else
    match o with
    | .connFail =>
      let was_online := node.status == "online"
      let db := db.updateNode { node with status := "offline", last_check := some now }
      if was_online then
        let alert := nodeDownAlert db.next_alert_id node now
        let db : Db := { db with
          alerts := db.alerts ++ [alert],
          next_alert_id := db.next_alert_id + 1 }
        let effs := [Eff.testConnection node.id]
          ++ send_alert_notification "node_down" "critical" alert.title
          ++ send_alert_webhooks db "node_down"
          ++ send_alert_notifications db "node_down" "critical"
        (db, effs, "offline")
      else (db, [Eff.testConnection node.id], "offline")
    | .statusOk st =>
      let db := db.updateNode { node with status := st.status, last_check := some now }
      let r :=
        if st.status == "online" then nodeMetricsAndRules db node st now bc
        else (db, [])
      let effs := [Eff.testConnection node.id, Eff.getNodeStatus node.id]
        ++ r.2 ++ (if bc then [Eff.broadcast "node_update"] else [])
      (r.1, effs, st.status)
    | .statusFail msg =>
      let db := db.updateNode { node with status := "error", last_check := some now }
      (db, [Eff.testConnection node.id, Eff.getNodeStatus node.id], "error")

/-- Field updates applied to an existing VM row in `sync_vms`
(lines 218-228); each `.get` default is the one the code passes. -/
def updateVmFields (vm : VM) (vd : VmData) (now : Nat) : VM :=
  { vm with
    name := vd.name.getD vm.name,
    status := vd.status.getD "unknown",
    cpu_usage := vd.cpu_usage.getD 0,
    memory_usage := vd.memory_usage.getD 0,
    memory_total := vd.memory_total.getD 0,
    disk_usage := vd.disk_usage.getD 0,
    disk_total := vd.disk_total.getD 0,
    uptime := vd.uptime.getD 0,
    last_check := some now }

/-- The VM row created in `sync_vms` (lines 231-243); `vmId` is the
primary key the commit will assign. -/
def newVm (vmId : Nat) (node_id : Nat) (vd : VmData) (now : Nat) : VM :=
  { id := vmId, node_id := node_id, vmid := vd.vmid,
    name := vd.name.getD ("VM " ++ toString vd.vmid),
    status := vd.status.getD "unknown",
    cpu_usage := vd.cpu_usage.getD 0,
    memory_usage := vd.memory_usage.getD 0,
    memory_total := vd.memory_total.getD 0,
    disk_usage := vd.disk_usage.getD 0,
    disk_total := vd.disk_total.getD 0,
    uptime := vd.uptime.getD 0,
    last_check := some now }

/-- The per-VM tail of the `sync_vms` loop body (lines 246-283): append
the cpu and memory metrics and feed each present usage figure to the
rule engine.  `mvid` is `vm.id if vm.id else None`: for a row created in
this pass the uncommitted ORM object has no id yet, so it is `none`. -/
def vmMetricsAndRules (db : Db) (node : Node) (vd : VmData)
    (mvid : Option Nat) (now : Nat) (bc : Bool) : Db × List Eff :=
  let db : Db := { db with metrics := db.metrics ++
    [ { node_id := some node.id, vm_id := mvid, metric_type := "cpu",
        value := vd.cpu_usage.getD 0, unit := "percent", recorded_at := now },
      { node_id := some node.id, vm_id := mvid, metric_type := "memory",
        value := vd.memory_usage.getD 0, unit := "percent", recorded_at := now } ] }
  let r1 := if vd.cpu_usage.isSome then
      evaluate_alert_rules db "cpu" (vd.cpu_usage.getD 0)
        (some node.id) mvid none now bc
    else (db, [])
  let r2 := if vd.memory_usage.isSome then
      evaluate_alert_rules r1.1 "memory" (vd.memory_usage.getD 0)
        (some node.id) mvid none now bc
    else (r1.1, [])
  (r2.1, r1.2 ++ r2.2)

/-- One iteration of the upsert loop in `sync_vms` (lines 214-283):
update the row found in the dictionary read at loop entry (the last row
wins for a duplicate vmid, as in the Python dict build) or create a new
one, then record metrics and evaluate rules. -/
def syncVmStep (node : Node) (existing : List VM) (now : Nat) (bc : Bool)
    (acc : Db × List Eff) (vd : VmData) : Db × List Eff :=
  match existing.reverse.find? (fun vm => vm.vmid == vd.vmid) with
  | some vm0 =>
    let db : Db := { acc.1 with vms := acc.1.vms.map (fun v =>
      if v.id == vm0.id then updateVmFields v vd now else v) }
    let mvid := if vm0.id == 0 then none else some vm0.id
    let r := vmMetricsAndRules db node vd mvid now bc
    (r.1, acc.2 ++ r.2)
  | none =>
    let db : Db := { acc.1 with
      vms := acc.1.vms ++ [newVm acc.1.next_vm_id node.id vd now],
      next_vm_id := acc.1.next_vm_id + 1 }
    let r := vmMetricsAndRules db node vd none now bc
    (r.1, acc.2 ++ r.2)

/-- `scheduler.sync_vms`: construct the client and call `get_vms()`
(this contacts the Proxmox endpoint; an exception is caught and logged).
On success, upsert each returned VM keyed by its external vmid, record
metrics, evaluate rules, and broadcast.  There is no maintenance-mode
guard in this function. -/
def sync_vms (db : Db) (node : Node) (o : VmsOutcome) (now : Nat)
    (bc : Bool) : Db × List Eff :=
  match o with
  | .failure msg => (db, [Eff.getVms node.id])
  | .ok vms_data =>
    let existing := db.vms.filter (fun vm => vm.node_id == node.id)
    let res := vms_data.foldl (syncVmStep node existing now bc) (db, [])
    (res.1, [Eff.getVms node.id] ++ res.2
      ++ (if bc then [Eff.broadcast "vms_update"] else []))

/-- The `service_down` Alert built in `check_service` (lines 340-346).
`result.get("error_message", ...)`: for a down result the message is
always populated (proved below), so the default only covers the
impossible missing case. -/
def serviceDownAlert (aid : Nat) (s : Service) (errmsg : Option String)
    (now : Nat) : Alert :=
  { id := aid, alert_type := "service_down", severity := "critical",
    title := "Service " ++ s.name ++ " is down",
    message := errmsg.getD "Service check failed",
    node_id := none, vm_id := none, service_id := some s.id,
    is_resolved := false, resolved_at := none, created_at := now }

/-- The unresolved alerts of one service, i.e. the rows matched by
`Alert.service_id == service.id, Alert.is_resolved == False`. -/
def unresolvedForService (alerts : List Alert) (sid : Nat) : List Alert :=
  alerts.filter (fun a => a.service_id == some sid && a.is_resolved == false)

/-- The body of `scheduler.check_service` after the probe returned
`result`: store the HealthCheck row; on `down` create a `service_down`
alert only when no unresolved alert for this service exists, and notify;
otherwise resolve every unresolved alert of this service; broadcast. -/
def scheduler_check_service (db : Db) (s : Service) (result : CheckResult)
    (now : Nat) (bc : Bool) : Db × List Eff :=
  let hc : HealthCheck :=
    { id := db.next_hc_id, service_id := s.id, status := result.status,
      response_time := result.response_time, status_code := result.status_code,
      error_message := result.error_message, checked_at := now }
  let db : Db := { db with
    health_checks := db.health_checks ++ [hc],
    next_hc_id := db.next_hc_id + 1 }
  let tail : List Eff := if bc then [Eff.broadcast "service_update"] else []
  if result.status == "down" then
    match db.alerts.find? (fun a => a.service_id == some s.id && a.is_resolved == false) with
    | some _ => (db, tail)
    | none =>
      let alert := serviceDownAlert db.next_alert_id s result.error_message now
      let db : Db := { db with
        alerts := db.alerts ++ [alert],
        next_alert_id := db.next_alert_id + 1 }
      let effs := send_alert_notification "service_down" "critical" alert.title
        ++ send_alert_webhooks db "service_down"
        ++ send_alert_notifications db "service_down" "critical"
      (db, effs ++ tail)
  else
    let db : Db := { db with alerts := db.alerts.map (fun a =>
      if a.service_id == some s.id && a.is_resolved == false
      then { a with is_resolved := true, resolved_at := some now } else a) }
    (db, tail)

/-- `scheduler.check_service`: run the health probe, then process its
result (`scheduler_check_service`). -/
def check_service_full (db : Db) (s : Service) (w : World) (now : Nat)
    (bc : Bool) : Db × List Eff :=
  scheduler_check_service db s
    (check_service s.type s.target s.port s.timeout s.expected_status
      s.custom_command s.custom_script w) now bc

/-- One iteration of the `run_node_checks` loop: refresh the node from
the store, then `check_node` followed by `sync_vms`. -/
def nodeTick (no : Nat → NodeOutcome) (vo : Nat → VmsOutcome) (now : Nat)
    (bc : Bool) (acc : Db × List Eff) (nid : Nat) : Db × List Eff :=
  match acc.1.nodes.find? (fun n => n.id == nid) with
  | none => acc
  | some n =>
    let r1 := check_node acc.1 n (no nid) now bc
    let r2 := sync_vms r1.1 n (vo nid) now bc
    (r2.1, acc.2 ++ r1.2.1 ++ r2.2)

/-- `scheduler.run_node_checks`: query the active nodes (there is no
maintenance-mode filter here), then run `check_node` and `sync_vms` for
each in turn. -/
def run_node_checks (db : Db) (no : Nat → NodeOutcome) (vo : Nat → VmsOutcome)
    (now : Nat) (bc : Bool) : Db × List Eff :=
  ((db.nodes.filter (fun n => n.is_active)).map (fun n => n.id)).foldl
    (nodeTick no vo now bc) (db, [])

/-- Repeated `check_node` polls of one node (the node job restricted to a
single node id), one outcome per tick. -/
def runNodeSeq (db : Db) (nid : Nat) (os : List NodeOutcome) (now : Nat)
    (bc : Bool) : Db :=
  os.foldl (fun d o =>
    match d.nodes.find? (fun n => n.id == nid) with
    | none => d
    | some n => (check_node d n o now bc).1) db

/-! ## Bridge lemmas -/

lemma ratSub_eq (a b : Rat) : ratSub a b = a - b := by
  have ha : ((a.den : ℚ)) ≠ 0 := Nat.cast_ne_zero.mpr a.den_nz
  have hb : ((b.den : ℚ)) ≠ 0 := Nat.cast_ne_zero.mpr b.den_nz
  rw [ratSub, Rat.mkRat_eq_div]
  push_cast
  conv_rhs => rw [← Rat.num_div_den a, ← Rat.num_div_den b, div_sub_div _ _ ha hb]
  ring_nf

lemma mkRat_one_hundred : (mkRat 1 100 : Rat) = 1 / 100 := by
  rw [Rat.mkRat_eq_div]; norm_num

/-! ## C7: comparator evaluation -/

/-- C7: `evaluate_rule` computes `>`, `<`, `>=`, `<=` as direct numeric
comparisons of the value against the threshold, and `==` as
`|value - threshold| < 0.01`. -/
theorem comparator_semantics (rule : AlertRule) (v : Rat) :
    (rule.operator = ">" → (evaluate_rule rule v = true ↔ v > rule.threshold)) ∧
    (rule.operator = "<" → (evaluate_rule rule v = true ↔ v < rule.threshold)) ∧
    (rule.operator = ">=" → (evaluate_rule rule v = true ↔ v ≥ rule.threshold)) ∧
    (rule.operator = "<=" → (evaluate_rule rule v = true ↔ v ≤ rule.threshold)) ∧
    (rule.operator = "==" →
      (evaluate_rule rule v = true ↔ |v - rule.threshold| < 1 / 100)) := by
  refine ⟨?_, ?_, ?_, ?_, ?_⟩ <;> intro h <;>
    simp [evaluate_rule, h, ratSub_eq, mkRat_one_hundred]

/-- The `==` rule with threshold 90 used in the spec's comparator edge
case. -/
def eqRule90 : AlertRule :=
  { id := 1, name := "edge", metric_type := "cpu", operator := "==",
    threshold := 90, severity := "critical", node_id := none, vm_id := none,
    service_id := none, cooldown_minutes := 5, is_active := true,
    last_triggered := none }

/-- Witness for C7: with threshold 90 and operator `==`, the value 90.005
satisfies the rule and 90.02 does not. -/
theorem comparator_semantics_witness :
    evaluate_rule eqRule90 (mkRat 90005 1000) = true ∧
    evaluate_rule eqRule90 (mkRat 9002 100) = false := by
  have ht : eqRule90.threshold = (90 : Rat) := rfl
  constructor
  · apply ((comparator_semantics eqRule90 (mkRat 90005 1000)).2.2.2.2 rfl).mpr
    rw [ht, show (mkRat 90005 1000 : Rat) = 90 + 5 / 1000 by
          rw [Rat.mkRat_eq_div]; norm_num, abs_lt]
    constructor <;> norm_num
  · refine Bool.eq_false_iff.mpr (fun hc => ?_)
    have h3 := ((comparator_semantics eqRule90 (mkRat 9002 100)).2.2.2.2 rfl).mp hc
    rw [ht, show (mkRat 9002 100 : Rat) = 90 + 2 / 100 by
          rw [Rat.mkRat_eq_div]; norm_num, abs_lt] at h3
    linarith [h3.2]

/-! ## C5: cooldown -/

lemma processRule_skip_of_cooldown {mt : String} {v : Rat}
    {nid vmid sid : Option Nat} {now : Nat} {bc : Bool}
    {r : AlertRule} (hcool : check_cooldown now r = false)
    (acc : Db × List Eff) :
    processRule mt v nid vmid sid now bc acc r = acc := by
  simp [processRule, hcool]

/-- C5: a rule can trigger only when it is out of cooldown:
`check_cooldown` holds exactly when `last_triggered` is null or `now` is
strictly later than `last_triggered + 60 * cooldown_minutes`; a single
rule still in cooldown produces no alert and no effects at all; an
eligible matching rule with a breaching value and no duplicate alert
creates exactly one alert and stamps `last_triggered := now`. -/
theorem cooldown_semantics :
    (∀ (now : Nat) (r : AlertRule),
      check_cooldown now r = true ↔
        (r.last_triggered = none ∨
         ∃ t, r.last_triggered = some t ∧ now > t + 60 * r.cooldown_minutes)) ∧
    (∀ (db : Db) (r : AlertRule) (mt : String) (v : Rat)
       (nid vmid sid : Option Nat) (now t : Nat) (bc : Bool),
      db.alert_rules = [r] → r.last_triggered = some t →
      ¬ now > t + 60 * r.cooldown_minutes →
      evaluate_alert_rules db mt v nid vmid sid now bc = (db, [])) ∧
    (∀ (db : Db) (r : AlertRule) (mt : String) (v : Rat)
       (nid vmid sid : Option Nat) (now : Nat) (bc : Bool),
      db.alert_rules = [r] → check_cooldown now r = true →
      r.is_active = true → r.metric_type = mt →
      scope_ok nid r.node_id = true → scope_ok vmid r.vm_id = true →
      scope_ok sid r.service_id = true →
      evaluate_rule r v = true →
      findExistingHighUsage db.alerts nid vmid sid = none →
      ∃ a : Alert,
        (evaluate_alert_rules db mt v nid vmid sid now bc).1.alerts
          = db.alerts ++ [a] ∧
        a.alert_type = "high_usage" ∧ a.created_at = now ∧
        (evaluate_alert_rules db mt v nid vmid sid now bc).1.alert_rules
          = [{ r with last_triggered := some now }]) := by
  refine ⟨?_, ?_, ?_⟩
  · intro now r
    cases h : r.last_triggered with
    | none => simp [check_cooldown, h]
    | some t =>
      simp only [check_cooldown, h, decide_eq_true_eq]
      constructor
      · intro hgt; exact Or.inr ⟨t, rfl, hgt⟩
      · rintro (hc | ⟨t2, ht2, hgt⟩)
        · exact absurd hc (by simp)
        · cases ht2; exact hgt
  · intro db r mt v nid vmid sid now t bc h1 h2 h3
    have hcool : check_cooldown now r = false := by
      simp [check_cooldown, h2, h3]
    unfold evaluate_alert_rules
    rw [selectRules, h1, List.filter_cons, List.filter_nil]
    split_ifs with hp
    · simp [List.foldl, processRule_skip_of_cooldown hcool]
    · simp [List.foldl]
  · intro db r mt v nid vmid sid now bc h1 hcool hact hmt hs1 hs2 hs3 hev hfind
    unfold evaluate_alert_rules
    rw [selectRules, h1, List.filter_cons, List.filter_nil]
    have hp : (r.is_active && r.metric_type == mt &&
        scope_ok nid r.node_id && scope_ok vmid r.vm_id &&
        scope_ok sid r.service_id) = true := by
      simp [hact, hmt, hs1, hs2, hs3]
    rw [if_pos hp]
    simp only [List.foldl, processRule, hcool, hev, h1, hfind,
      Bool.not_true, Bool.false_eq_true, if_false, Option.isSome_none]
    refine ⟨_, rfl, rfl, rfl, ?_⟩
    simp

/-- A rule with `cooldown_minutes = 5` last triggered at t=820s. -/
def cdRule : AlertRule :=
  { id := 7, name := "cpu high", metric_type := "cpu", operator := ">",
    threshold := 90, severity := "critical", node_id := none, vm_id := none,
    service_id := none, cooldown_minutes := 5, is_active := true,
    last_triggered := some 820 }

/-- A store holding only `cdRule`. -/
def cdDb : Db :=
  { nodes := [], vms := [], services := [], alerts := [], alert_rules := [cdRule],
    health_checks := [], metrics := [], webhooks := [], channels := [],
    next_alert_id := 1, next_vm_id := 1, next_hc_id := 1 }

/-- The same rule last triggered six minutes before t=1000s. -/
def cdRule6 : AlertRule := { cdRule with last_triggered := some 640 }

/-- A store holding only `cdRule6`. -/
def cdDb6 : Db := { cdDb with alert_rules := [cdRule6] }

/-- Witness for C5: at `now = 1000` a rule with `cooldown_minutes = 5`
last triggered 180 s ago produces nothing, while one last triggered
360 s ago produces one alert and is restamped. -/
theorem cooldown_semantics_witness :
    (evaluate_alert_rules cdDb "cpu" 95 (some 7) none none 1000 false
      = (cdDb, [])) ∧
    (∃ a : Alert,
      (evaluate_alert_rules cdDb6 "cpu" 95 (some 7) none none 1000 false).1.alerts
        = cdDb6.alerts ++ [a] ∧
      a.alert_type = "high_usage" ∧ a.created_at = 1000 ∧
      (evaluate_alert_rules cdDb6 "cpu" 95 (some 7) none none 1000 false).1.alert_rules
        = [{ cdRule6 with last_triggered := some 1000 }]) := by
  constructor
  · exact cooldown_semantics.2.1 cdDb cdRule "cpu" 95 (some 7) none none 1000 820
      false rfl rfl (by decide)
  · exact cooldown_semantics.2.2 cdDb6 cdRule6 "cpu" 95 (some 7) none none 1000
      false rfl (by decide) rfl rfl (by decide) (by decide) (by decide)
      (by decide) rfl

/-! ## C6: scope matching -/

lemma scope_ok_iff (given field : Option Nat) (hg : given ≠ some 0) :
    scope_ok given field = true ↔ (field = given ∨ field = none) := by
  cases given with
  | none => simp [scope_ok, idTruthy]
  | some n =>
    have hn : (n != 0) = true := by
      simp only [ne_eq, bne_iff_ne]
      intro h; exact hg (by rw [h])
    simp [scope_ok, idTruthy, hn]

/-- C6: the rules considered by `evaluate_alert_rules` are exactly the
active rules of the given metric type whose scope fields each either
equal the corresponding given id or are unset (unset = wildcard); the
given ids are database primary keys, hence never 0. -/
theorem rule_scope_selection (db : Db) (mt : String)
    (nid vmid sid : Option Nat)
    (hn : nid ≠ some 0) (hv : vmid ≠ some 0) (hs : sid ≠ some 0) :
    ∀ r : AlertRule, r ∈ selectRules db mt nid vmid sid ↔
      (r ∈ db.alert_rules ∧ r.is_active = true ∧ r.metric_type = mt ∧
       (r.node_id = nid ∨ r.node_id = none) ∧
       (r.vm_id = vmid ∨ r.vm_id = none) ∧
       (r.service_id = sid ∨ r.service_id = none)) := by
  intro r
  rw [selectRules, List.mem_filter]
  simp only [Bool.and_eq_true, beq_iff_eq,
    scope_ok_iff _ _ hn, scope_ok_iff _ _ hv, scope_ok_iff _ _ hs]
  tauto

/-- A rule scoped to node 1. -/
def ruleNode1 : AlertRule :=
  { id := 1, name := "node1 cpu", metric_type := "cpu", operator := ">",
    threshold := 90, severity := "warning", node_id := some 1, vm_id := none,
    service_id := none, cooldown_minutes := 5, is_active := true,
    last_triggered := none }

/-- A rule with no scope fields. -/
def ruleGlobal : AlertRule :=
  { id := 2, name := "global cpu", metric_type := "cpu", operator := ">",
    threshold := 95, severity := "critical", node_id := none, vm_id := none,
    service_id := none, cooldown_minutes := 5, is_active := true,
    last_triggered := none }

/-- A store holding the two rules above. -/
def dbScope : Db :=
  { nodes := [], vms := [], services := [], alerts := [],
    alert_rules := [ruleNode1, ruleGlobal], health_checks := [], metrics := [],
    webhooks := [], channels := [],
    next_alert_id := 1, next_vm_id := 1, next_hc_id := 1 }

/-- Witness for C6: the node-1 rule is considered only when node 1 is the
subject; the unscoped rule is considered for node 1, node 2 and a
no-subject evaluation alike. -/
theorem rule_scope_selection_witness :
    ruleNode1 ∈ selectRules dbScope "cpu" (some 1) none none ∧
    ruleNode1 ∉ selectRules dbScope "cpu" (some 2) none none ∧
    ruleNode1 ∉ selectRules dbScope "cpu" none none none ∧
    ruleGlobal ∈ selectRules dbScope "cpu" (some 1) none none ∧
    ruleGlobal ∈ selectRules dbScope "cpu" (some 2) none none ∧
    ruleGlobal ∈ selectRules dbScope "cpu" none none none := by
  refine ⟨?_, ?_, ?_, ?_, ?_, ?_⟩
  · exact (rule_scope_selection dbScope "cpu" (some 1) none none
      (by decide) (by decide) (by decide) ruleNode1).mpr
      (by refine ⟨by decide, rfl, rfl, Or.inl rfl, Or.inr rfl, Or.inr rfl⟩)
  · intro hmem
    rcases (rule_scope_selection dbScope "cpu" (some 2) none none
      (by decide) (by decide) (by decide) ruleNode1).mp hmem with
      ⟨-, -, -, hor, -, -⟩
    rcases hor with h | h <;> simp [ruleNode1] at h
  · intro hmem
    rcases (rule_scope_selection dbScope "cpu" none none none
      (by decide) (by decide) (by decide) ruleNode1).mp hmem with
      ⟨-, -, -, hor, -, -⟩
    rcases hor with h | h <;> simp [ruleNode1] at h
  · exact (rule_scope_selection dbScope "cpu" (some 1) none none
      (by decide) (by decide) (by decide) ruleGlobal).mpr
      (by refine ⟨by decide, rfl, rfl, Or.inr rfl, Or.inr rfl, Or.inr rfl⟩)
  · exact (rule_scope_selection dbScope "cpu" (some 2) none none
      (by decide) (by decide) (by decide) ruleGlobal).mpr
      (by refine ⟨by decide, rfl, rfl, Or.inr rfl, Or.inr rfl, Or.inr rfl⟩)
  · exact (rule_scope_selection dbScope "cpu" none none none
      (by decide) (by decide) (by decide) ruleGlobal).mpr
      (by refine ⟨by decide, rfl, rfl, Or.inr rfl, Or.inr rfl, Or.inr rfl⟩)

/-! ## C9: notification channel and webhook filtering -/

/-- C9: a channel whose non-empty `alert_types` allow-list misses the
alert's type, or whose non-empty `severity_filter` misses its severity,
receives no outbound call; an active channel with empty filter lists is
always dispatched to; likewise an active webhook with an empty
`alert_types` list always receives its POST, and one with a non-empty
list missing the type never does.  Ids are primary keys, hence distinct. -/
theorem channel_filtering (db : Db) (alert_type severity : String)
    (hnodup : (db.channels.map (fun c => c.id)).Nodup)
    (hwnodup : (db.webhooks.map (fun w => w.id)).Nodup) :
    (∀ ch ∈ db.channels,
      ((ch.alert_types ≠ [] ∧ alert_type ∉ ch.alert_types) ∨
       (ch.severity_filter ≠ [] ∧ severity ∉ ch.severity_filter)) →
      ∀ (ct a s : String),
        Eff.chatPost ch.id ct a s ∉ send_alert_notifications db alert_type severity) ∧
    (∀ ch ∈ db.channels, ch.is_active = true → ch.alert_types = [] →
      ch.severity_filter = [] → (ch.type = "slack" ∨ ch.type = "discord") →
      Eff.chatPost ch.id ch.type alert_type severity
        ∈ send_alert_notifications db alert_type severity) ∧
    (∀ w ∈ db.webhooks, w.is_active = true → w.alert_types = [] →
      Eff.webhookPost w.id alert_type ∈ send_alert_webhooks db alert_type) ∧
    (∀ w ∈ db.webhooks, w.alert_types ≠ [] → alert_type ∉ w.alert_types →
      Eff.webhookPost w.id alert_type ∉ send_alert_webhooks db alert_type) := by
  refine ⟨?_, ?_, ?_, ?_⟩
  · intro ch hch hskip ct a s hmem
    unfold send_alert_notifications at hmem
    rw [List.mem_flatMap] at hmem
    obtain ⟨c, hcmem, hdisp⟩ := hmem
    have hcdb : c ∈ db.channels := (List.mem_filter.mp hcmem).1
    unfold channelDispatch at hdisp
    split_ifs at hdisp with hg1 hg2 hg3 hg4 <;> simp at hdisp
    · obtain ⟨hid, -, -, -⟩ := hdisp
      have hceq : ch = c := List.inj_on_of_nodup_map hnodup hch hcdb hid
      subst hceq
      rcases hskip with ⟨hne, hnotin⟩ | ⟨hne, hnotin⟩
      · exact hg1 (by simp [bne_iff_ne, hne, List.contains, hnotin])
      · exact hg2 (by simp [bne_iff_ne, hne, List.contains, hnotin])
    · obtain ⟨hid, -, -, -⟩ := hdisp
      have hceq : ch = c := List.inj_on_of_nodup_map hnodup hch hcdb hid
      subst hceq
      rcases hskip with ⟨hne, hnotin⟩ | ⟨hne, hnotin⟩
      · exact hg1 (by simp [bne_iff_ne, hne, List.contains, hnotin])
      · exact hg2 (by simp [bne_iff_ne, hne, List.contains, hnotin])
  · intro ch hch hact hta hsf htype
    unfold send_alert_notifications
    rw [List.mem_flatMap]
    refine ⟨ch, List.mem_filter.mpr ⟨hch, by simp [hact]⟩, ?_⟩
    unfold channelDispatch
    rw [if_neg (by simp [hta]), if_neg (by simp [hsf])]
    rcases htype with h | h <;> rw [h] <;> simp
  · intro w hw hact hta
    unfold send_alert_webhooks
    rw [List.mem_flatMap]
    refine ⟨w, List.mem_filter.mpr ⟨hw, by simp [hact]⟩, ?_⟩
    rw [if_neg (by simp [hta])]
    simp
  · intro w hw hne hnotin hmem
    unfold send_alert_webhooks at hmem
    rw [List.mem_flatMap] at hmem
    obtain ⟨w2, hw2mem, hpost⟩ := hmem
    have hw2db : w2 ∈ db.webhooks := (List.mem_filter.mp hw2mem).1
    split_ifs at hpost with hg <;> simp at hpost
    have hweq : w = w2 := List.inj_on_of_nodup_map hwnodup hw hw2db hpost
    subst hweq
    exact hg (by simp [bne_iff_ne, hne, List.contains, hnotin])

/-- A Slack channel that only wants `service_down` alerts. -/
def chanFiltered : NotificationChannel :=
  { id := 1, name := "ops", type := "slack",
    webhook_url := "https://hooks.example/a",
    alert_types := ["service_down"], severity_filter := [], is_active := true }

/-- A Discord channel with no filters. -/
def chanOpen : NotificationChannel :=
  { id := 2, name := "all", type := "discord",
    webhook_url := "https://hooks.example/b",
    alert_types := [], severity_filter := [], is_active := true }

/-- A webhook with no filter. -/
def whOpen : Webhook :=
  { id := 1, name := "generic", url := "https://cb.example/x",
    method := "POST", alert_types := [], is_active := true }

/-- A webhook that only wants `service_down` alerts. -/
def whFiltered : Webhook :=
  { id := 2, name := "narrow", url := "https://cb.example/y",
    method := "POST", alert_types := ["service_down"], is_active := true }

/-- A store holding the two channels and two webhooks above. -/
def dbChans : Db :=
  { nodes := [], vms := [], services := [], alerts := [], alert_rules := [],
    health_checks := [], metrics := [], webhooks := [whOpen, whFiltered],
    channels := [chanFiltered, chanOpen],
    next_alert_id := 1, next_vm_id := 1, next_hc_id := 1 }

/-- Witness for C9: a `high_usage` alert skips the `service_down`-only
channel and webhook but reaches the unfiltered ones. -/
theorem channel_filtering_witness :
    Eff.chatPost 1 "slack" "high_usage" "critical"
      ∉ send_alert_notifications dbChans "high_usage" "critical" ∧
    Eff.chatPost 2 "discord" "high_usage" "critical"
      ∈ send_alert_notifications dbChans "high_usage" "critical" ∧
    Eff.webhookPost 1 "high_usage" ∈ send_alert_webhooks dbChans "high_usage" ∧
    Eff.webhookPost 2 "high_usage" ∉ send_alert_webhooks dbChans "high_usage" := by
  refine ⟨?_, ?_, ?_, ?_⟩
  · exact (channel_filtering dbChans "high_usage" "critical" (by decide)
      (by decide)).1 chanFiltered (by decide)
      (Or.inl ⟨by decide, by decide⟩) "slack" "high_usage" "critical"
  · exact (channel_filtering dbChans "high_usage" "critical" (by decide)
      (by decide)).2.1 chanOpen (by decide) rfl rfl rfl (Or.inr rfl)
  · exact (channel_filtering dbChans "high_usage" "critical" (by decide)
      (by decide)).2.2.1 whOpen (by decide) rfl rfl
  · exact (channel_filtering dbChans "high_usage" "critical" (by decide)
      (by decide)).2.2.2 whFiltered (by decide) (by decide) (by decide)

/-! ## C8: health checker never raises, errors map to down -/

/-- The status strings a health check result can carry. -/
def statusValid (r : CheckResult) : Prop :=
  r.status = "up" ∨ r.status = "down" ∨ r.status = "warning"

/-- C8: for every input (unknown check types, missing port, missing
custom command/script included) and every behaviour of the outside
world, `check_service` returns a result with a valid status, every
`down` result carries a populated `error_message`, and a transport or
process error in the branch taken always yields a `down` result. -/
theorem health_check_no_raise (service_type target : String) (port : Option Nat)
    (timeout expected_status : Nat)
    (custom_command custom_script : Option String) (w : World) :
    statusValid (check_service service_type target port timeout expected_status
      custom_command custom_script w) ∧
    ((check_service service_type target port timeout expected_status
        custom_command custom_script w).status = "down" →
      (check_service service_type target port timeout expected_status
        custom_command custom_script w).error_message ≠ none) ∧
    (transportError service_type port custom_command custom_script w = true →
      (check_service service_type target port timeout expected_status
        custom_command custom_script w).status = "down") := by
  rcases w with ⟨whttp, wport, wping, wproc⟩
  by_cases h1 : (service_type == "custom") = true
  · by_cases h2 : (!strTruthy custom_command && !strTruthy custom_script) = true
    · simp [check_service, transportError, h1, h2, statusValid]
    · cases wproc <;>
        simp only [check_service, transportError, h1, h2, Bool.false_eq_true,
          if_false, if_true, check_custom, statusValid] <;>
        first | (split_ifs <;> simp_all) | simp_all
  · by_cases h2 : (service_type == "http" || service_type == "https") = true
    · cases whttp <;>
        simp only [check_service, transportError, h1, h2, Bool.false_eq_true,
          if_false, if_true, check_http, statusValid] <;>
        first | (split_ifs <;> simp_all) | simp_all
    · by_cases h3 : (service_type == "ping") = true
      · cases wping <;>
          simp only [check_service, transportError, h1, h2, h3,
            Bool.false_eq_true, if_false, if_true, check_ping, statusValid] <;>
          first | (split_ifs <;> simp_all) | simp_all
      · by_cases h4 : (service_type == "port") = true
        · cases port with
          | none =>
            simp [check_service, transportError, h1, h2, h3, h4, statusValid]
          | some p =>
            cases wport <;>
              simp only [check_service, transportError, h1, h2, h3, h4,
                Bool.false_eq_true, if_false, if_true, check_port, statusValid] <;>
              first | (split_ifs <;> simp_all) | simp_all
        · simp [check_service, transportError, h1, h2, h3, h4, statusValid]

/-- Witness for C8: probing a closed TCP port yields a `down` result with
a populated error message. -/
theorem health_check_no_raise_witness :
    (check_service "port" "10.0.0.5" (some 9999) 1 200 none none
      { http := .timeout, port := .connected 111 (mkRat 2 1), ping := .timeout,
        proc := .timeout }).status = "down" ∧
    (check_service "port" "10.0.0.5" (some 9999) 1 200 none none
      { http := .timeout, port := .connected 111 (mkRat 2 1), ping := .timeout,
        proc := .timeout }).error_message ≠ none := by
  have h := health_check_no_raise "port" "10.0.0.5" (some 9999) 1 200 none none
    { http := .timeout, port := .connected 111 (mkRat 2 1), ping := .timeout,
      proc := .timeout }
  have hdown := h.2.2 (by decide)
  exact ⟨hdown, h.2.1 hdown⟩

/-! ## C10: dedup is a complete no-op -/

lemma evaluate_noop_of_existing (db : Db) (mt : String) (v : Rat)
    (nid vmid sid : Option Nat) (now : Nat) (bc : Bool)
    (h : findExistingHighUsage db.alerts nid vmid sid ≠ none) :
    evaluate_alert_rules db mt v nid vmid sid now bc = (db, []) := by
  have hstep : ∀ r, processRule mt v nid vmid sid now bc (db, []) r = (db, []) := by
    intro r
    have h3 : (findExistingHighUsage db.alerts nid vmid sid).isSome = true :=
      Option.isSome_iff_ne_none.mpr h
    unfold processRule
    dsimp only
    simp only [h3, if_true]
    split_ifs <;> rfl
  unfold evaluate_alert_rules
  induction selectRules db mt nid vmid sid with
  | nil => rfl
  | cons r l ih => rw [List.foldl_cons, hstep r, ih]

/-- C10: when an unresolved `high_usage` alert with the matching
normalised `(node_id, vm_id, service_id)` tuple already exists, a call
to `evaluate_alert_rules` changes nothing at all: no alert row, no
`last_triggered` update on any rule, and no e-mail, webhook, chat or
broadcast effect — even for rules whose condition is met and which are
out of cooldown. -/
theorem dedup_blocks_all_effects (db : Db) (mt : String) (v : Rat)
    (nid vmid sid : Option Nat) (now : Nat) (bc : Bool)
    (h : findExistingHighUsage db.alerts nid vmid sid ≠ none) :
    evaluate_alert_rules db mt v nid vmid sid now bc = (db, []) :=
  evaluate_noop_of_existing db mt v nid vmid sid now bc h

/-- An unresolved `high_usage` alert scoped to node 7. -/
def huAlert7 : Alert :=
  { id := 1, alert_type := "high_usage", severity := "critical",
    title := "cpu high - CPU threshold exceeded", message := "CPU is high",
    node_id := some 7, vm_id := none, service_id := none,
    is_resolved := false, resolved_at := none, created_at := 100 }

/-- A store with that alert and an eligible breaching rule. -/
def dbDedup : Db :=
  { nodes := [], vms := [], services := [], alerts := [huAlert7],
    alert_rules := [{ cdRule with last_triggered := none }],
    health_checks := [], metrics := [], webhooks := [whOpen],
    channels := [chanOpen],
    next_alert_id := 2, next_vm_id := 1, next_hc_id := 1 }

/-- Witness for C10: with the duplicate in place, a breaching value for
an eligible rule produces no change and no effects. -/
theorem dedup_blocks_all_effects_witness :
    evaluate_alert_rules dbDedup "cpu" 95 (some 7) none none 1000 true
      = (dbDedup, []) :=
  dedup_blocks_all_effects dbDedup "cpu" 95 (some 7) none none 1000 true
    (by decide)

/-! ## C3: service alert lifecycle -/

/-- C3: one `check_service` step keeps at most one unresolved alert per
service; any non-`down` result resolves everything unresolved for the
service (stamping `resolved_at := now`); a `down` result creates nothing
when an unresolved alert exists, and creates exactly one unresolved
`service_down` alert when none exists. -/
theorem service_alert_lifecycle (db : Db) (s : Service) (result : CheckResult)
    (now : Nat) (bc : Bool)
    (hinv : (unresolvedForService db.alerts s.id).length ≤ 1) :
    ((unresolvedForService (scheduler_check_service db s result now bc).1.alerts
        s.id).length ≤ 1) ∧
    (result.status ≠ "down" →
      unresolvedForService (scheduler_check_service db s result now bc).1.alerts
        s.id = []) ∧
    (result.status ≠ "down" → ∀ a ∈ db.alerts, a.service_id = some s.id →
      a.is_resolved = false →
      { a with is_resolved := true, resolved_at := some now }
        ∈ (scheduler_check_service db s result now bc).1.alerts) ∧
    (result.status = "down" → unresolvedForService db.alerts s.id ≠ [] →
      (scheduler_check_service db s result now bc).1.alerts = db.alerts) ∧
    (result.status = "down" → unresolvedForService db.alerts s.id = [] →
      ∃ a : Alert,
        (scheduler_check_service db s result now bc).1.alerts
          = db.alerts ++ [a] ∧
        a.alert_type = "service_down" ∧ a.service_id = some s.id ∧
        a.is_resolved = false) := by
  by_cases hd : (result.status == "down") = true
  · have hds : result.status = "down" := by simpa using hd
    simp only [scheduler_check_service, hd, if_true]
    cases hfind : db.alerts.find?
        (fun a => a.service_id == some s.id && a.is_resolved == false) with
    | some a0 =>
      have ha0mem : a0 ∈ db.alerts := List.mem_of_find?_eq_some hfind
      have ha0p := List.find?_some hfind
      have hne : unresolvedForService db.alerts s.id ≠ [] := by
        intro hempty
        have := List.filter_eq_nil_iff.mp hempty a0 ha0mem
        exact this ha0p
      simp only [hfind]
      refine ⟨hinv, fun hnd => absurd hds hnd, fun hnd => absurd hds hnd,
        ?_, fun _ hempty => absurd hempty hne⟩
      simp
    | none =>
      have hempty : unresolvedForService db.alerts s.id = [] := by
        apply List.filter_eq_nil_iff.mpr
        intro a hmem hp
        have := List.find?_eq_none.mp hfind a hmem
        exact this hp
      simp only [hfind]
      constructor
      · rw [unresolvedForService, List.filter_append]
        rw [unresolvedForService] at hempty
        rw [hempty]
        simp [serviceDownAlert]
      · exact ⟨fun hnd => absurd hds hnd, fun hnd => absurd hds hnd,
          fun _ hne => absurd hempty hne,
          fun _ _ => ⟨serviceDownAlert db.next_alert_id s result.error_message now,
            rfl, rfl, rfl, rfl⟩⟩
  · have hds : result.status ≠ "down" := by simpa using hd
    simp only [scheduler_check_service, hd, Bool.false_eq_true, if_false]
    have hres : unresolvedForService (db.alerts.map (fun a =>
        if a.service_id == some s.id && a.is_resolved == false
        then { a with is_resolved := true, resolved_at := some now } else a))
        s.id = [] := by
      apply List.filter_eq_nil_iff.mpr
      intro a hmem hp
      rw [List.mem_map] at hmem
      obtain ⟨b, hbmem, hba⟩ := hmem
      by_cases hb : (b.service_id == some s.id && b.is_resolved == false) = true
      · rw [if_pos hb] at hba
        subst hba
        simp at hp
      · rw [if_neg hb] at hba
        subst hba
        exact hb hp
    refine ⟨by rw [hres]; simp, fun _ => hres, ?_,
      fun hdd => absurd hdd hds, fun hdd => absurd hdd hds⟩
    intro _ a hmem hsid hunres
    rw [List.mem_map]
    refine ⟨a, hmem, ?_⟩
    rw [if_pos (by simp [hsid, hunres])]

/-- An HTTP service fixture. -/
def svcWeb : Service :=
  { id := 4, vm_id := none, name := "web", type := "http",
    target := "https://example.test/health", custom_command := none,
    custom_script := none, port := none, check_interval := 60, timeout := 5,
    is_active := true, maintenance_mode := false, expected_status := 200 }

/-- A store with no alerts for `svcWeb`. -/
def dbSvc : Db :=
  { nodes := [], vms := [], services := [svcWeb], alerts := [],
    alert_rules := [], health_checks := [], metrics := [], webhooks := [],
    channels := [], next_alert_id := 1, next_vm_id := 1, next_hc_id := 1 }

/-- An unresolved `service_down` alert for `svcWeb`. -/
def svcAlert : Alert :=
  { id := 9, alert_type := "service_down", severity := "critical",
    title := "Service web is down", message := "boom", node_id := none,
    vm_id := none, service_id := some 4, is_resolved := false,
    resolved_at := none, created_at := 10 }

/-- `dbSvc` with that unresolved alert in place. -/
def dbSvcDown : Db := { dbSvc with alerts := [svcAlert], next_alert_id := 10 }

/-- A `down` probe result. -/
def resDown : CheckResult :=
  { status := "down", response_time := none, status_code := none,
    error_message := some "Request timeout after 5 seconds" }

/-- An `up` probe result. -/
def resUp : CheckResult :=
  { status := "up", response_time := some (mkRat 12 1), status_code := some 200,
    error_message := none }

/-- Witness for C3: a first `down` creates one unresolved alert, a second
`down` creates nothing, and an `up` resolves everything. -/
theorem service_alert_lifecycle_witness :
    (∃ a : Alert,
      (scheduler_check_service dbSvc svcWeb resDown 50 false).1.alerts
        = dbSvc.alerts ++ [a] ∧
      a.alert_type = "service_down" ∧ a.service_id = some 4 ∧
      a.is_resolved = false) ∧
    (scheduler_check_service dbSvcDown svcWeb resDown 55 false).1.alerts
      = dbSvcDown.alerts ∧
    unresolvedForService
      (scheduler_check_service dbSvcDown svcWeb resUp 60 false).1.alerts 4 = [] := by
  refine ⟨?_, ?_, ?_⟩
  · exact (service_alert_lifecycle dbSvc svcWeb resDown 50 false
      (by decide)).2.2.2.2 rfl (by decide)
  · exact (service_alert_lifecycle dbSvcDown svcWeb resDown 55 false
      (by decide)).2.2.2.1 rfl (by decide)
  · exact (service_alert_lifecycle dbSvcDown svcWeb resUp 60 false
      (by decide)).2.1 (by decide)

/-! ## Frame lemmas for the rule engine -/

lemma processRule_frame (mt : String) (v : Rat) (nid vmid sid : Option Nat)
    (now : Nat) (bc : Bool) (acc : Db × List Eff) (r : AlertRule) :
    (processRule mt v nid vmid sid now bc acc r).1.nodes = acc.1.nodes ∧
    (processRule mt v nid vmid sid now bc acc r).1.vms = acc.1.vms ∧
    (processRule mt v nid vmid sid now bc acc r).1.services = acc.1.services ∧
    (processRule mt v nid vmid sid now bc acc r).1.health_checks = acc.1.health_checks ∧
    (processRule mt v nid vmid sid now bc acc r).1.metrics = acc.1.metrics ∧
    (processRule mt v nid vmid sid now bc acc r).1.webhooks = acc.1.webhooks ∧
    (processRule mt v nid vmid sid now bc acc r).1.channels = acc.1.channels := by
  unfold processRule
  dsimp only
  split_ifs <;> exact ⟨rfl, rfl, rfl, rfl, rfl, rfl, rfl⟩

lemma evalFold_frame (mt : String) (v : Rat) (nid vmid sid : Option Nat)
    (now : Nat) (bc : Bool) (l : List AlertRule) :
    ∀ acc : Db × List Eff,
      ((l.foldl (processRule mt v nid vmid sid now bc) acc).1.nodes = acc.1.nodes ∧
       (l.foldl (processRule mt v nid vmid sid now bc) acc).1.vms = acc.1.vms ∧
       (l.foldl (processRule mt v nid vmid sid now bc) acc).1.services = acc.1.services ∧
       (l.foldl (processRule mt v nid vmid sid now bc) acc).1.health_checks = acc.1.health_checks ∧
       (l.foldl (processRule mt v nid vmid sid now bc) acc).1.metrics = acc.1.metrics ∧
       (l.foldl (processRule mt v nid vmid sid now bc) acc).1.webhooks = acc.1.webhooks ∧
       (l.foldl (processRule mt v nid vmid sid now bc) acc).1.channels = acc.1.channels) := by
  induction l with
  | nil => intro acc; exact ⟨rfl, rfl, rfl, rfl, rfl, rfl, rfl⟩
  | cons r l ih =>
    intro acc
    rw [List.foldl_cons]
    have h1 := processRule_frame mt v nid vmid sid now bc acc r
    have h2 := ih (processRule mt v nid vmid sid now bc acc r)
    exact ⟨h2.1.trans h1.1, h2.2.1.trans h1.2.1, h2.2.2.1.trans h1.2.2.1,
      h2.2.2.2.1.trans h1.2.2.2.1, h2.2.2.2.2.1.trans h1.2.2.2.2.1,
      h2.2.2.2.2.2.1.trans h1.2.2.2.2.2.1, h2.2.2.2.2.2.2.trans h1.2.2.2.2.2.2⟩

/-- `evaluate_alert_rules` touches only alerts and rules: every other
table is unchanged. -/
lemma evaluate_frame (db : Db) (mt : String) (v : Rat)
    (nid vmid sid : Option Nat) (now : Nat) (bc : Bool) :
    (evaluate_alert_rules db mt v nid vmid sid now bc).1.nodes = db.nodes ∧
    (evaluate_alert_rules db mt v nid vmid sid now bc).1.vms = db.vms ∧
    (evaluate_alert_rules db mt v nid vmid sid now bc).1.services = db.services ∧
    (evaluate_alert_rules db mt v nid vmid sid now bc).1.health_checks = db.health_checks ∧
    (evaluate_alert_rules db mt v nid vmid sid now bc).1.metrics = db.metrics ∧
    (evaluate_alert_rules db mt v nid vmid sid now bc).1.webhooks = db.webhooks ∧
    (evaluate_alert_rules db mt v nid vmid sid now bc).1.channels = db.channels :=
  evalFold_frame mt v nid vmid sid now bc (selectRules db mt nid vmid sid) (db, [])

lemma processRule_alerts (mt : String) (v : Rat) (nid vmid sid : Option Nat)
    (now : Nat) (bc : Bool) (acc : Db × List Eff) (r : AlertRule) :
    processRule mt v nid vmid sid now bc acc r = acc ∨
    ∃ a : Alert, (processRule mt v nid vmid sid now bc acc r).1.alerts
        = acc.1.alerts ++ [a] ∧ a.alert_type = "high_usage" := by
  unfold processRule
  dsimp only
  split_ifs
  · exact Or.inl rfl
  · exact Or.inl rfl
  · exact Or.inl rfl
  · exact Or.inr ⟨_, rfl, rfl⟩
  · exact Or.inr ⟨_, rfl, rfl⟩

lemma evalFold_alerts (mt : String) (v : Rat) (nid vmid sid : Option Nat)
    (now : Nat) (bc : Bool) (l : List AlertRule) :
    ∀ acc : Db × List Eff,
      ∃ t : List Alert,
        (l.foldl (processRule mt v nid vmid sid now bc) acc).1.alerts
          = acc.1.alerts ++ t ∧ ∀ a ∈ t, a.alert_type = "high_usage" := by
  induction l with
  | nil => intro acc; exact ⟨[], (List.append_nil _).symm, by simp⟩
  | cons r l ih =>
    intro acc
    rw [List.foldl_cons]
    rcases processRule_alerts mt v nid vmid sid now bc acc r with he | ⟨a, ha, hty⟩
    · rw [he]; exact ih acc
    · obtain ⟨t, ht, hall⟩ := ih (processRule mt v nid vmid sid now bc acc r)
      refine ⟨a :: t, ?_, ?_⟩
      · rw [ht, ha, List.append_assoc]; rfl
      · intro x hx
        rcases List.mem_cons.mp hx with hx | hx
        · rw [hx]; exact hty
        · exact hall x hx

/-- `evaluate_alert_rules` only ever appends `high_usage` alerts. -/
lemma evaluate_alerts_highUsage (db : Db) (mt : String) (v : Rat)
    (nid vmid sid : Option Nat) (now : Nat) (bc : Bool) :
    ∃ t : List Alert,
      (evaluate_alert_rules db mt v nid vmid sid now bc).1.alerts
        = db.alerts ++ t ∧ ∀ a ∈ t, a.alert_type = "high_usage" :=
  evalFold_alerts mt v nid vmid sid now bc (selectRules db mt nid vmid sid) (db, [])

/-! ## C4: online-to-offline edge triggering -/

/-- The `node_down` alerts recorded for one node. -/
def countNodeDown (alerts : List Alert) (nid : Nat) : Nat :=
  (alerts.filter (fun a => a.alert_type == "node_down" && a.node_id == some nid)).length

lemma countNodeDown_append (alerts t : List Alert) (nid : Nat) :
    countNodeDown (alerts ++ t) nid = countNodeDown alerts nid + countNodeDown t nid := by
  rw [countNodeDown, countNodeDown, countNodeDown, List.filter_append,
    List.length_append]

lemma countNodeDown_highUsage (t : List Alert) (nid : Nat)
    (h : ∀ a ∈ t, a.alert_type = "high_usage") : countNodeDown t nid = 0 := by
  rw [countNodeDown, List.length_eq_zero]
  exact List.filter_eq_nil_iff.mpr (fun a ha => by simp [h a ha])

lemma condEval_nodes (c : Bool) (dbx db0 : Db) (mt : String) (v : Rat)
    (nid vmid sid : Option Nat) (now : Nat) (bc : Bool)
    (h : dbx.nodes = db0.nodes) :
    (if c = true then evaluate_alert_rules dbx mt v nid vmid sid now bc
     else (dbx, [])).1.nodes = db0.nodes := by
  split_ifs with hc
  · rw [(evaluate_frame dbx mt v nid vmid sid now bc).1, h]
  · exact h

lemma condEval_alerts (c : Bool) (dbx db0 : Db) (mt : String) (v : Rat)
    (nid vmid sid : Option Nat) (now : Nat) (bc : Bool)
    (h : ∃ t : List Alert, dbx.alerts = db0.alerts ++ t ∧
      ∀ a ∈ t, a.alert_type = "high_usage") :
    ∃ t : List Alert,
      (if c = true then evaluate_alert_rules dbx mt v nid vmid sid now bc
       else (dbx, [])).1.alerts = db0.alerts ++ t ∧
      ∀ a ∈ t, a.alert_type = "high_usage" := by
  obtain ⟨t1, h1, g1⟩ := h
  split_ifs with hc
  · obtain ⟨t2, h2, g2⟩ := evaluate_alerts_highUsage dbx mt v nid vmid sid now bc
    refine ⟨t1 ++ t2, by rw [h2, h1, List.append_assoc], fun a ha => ?_⟩
    rcases List.mem_append.mp ha with h | h
    exacts [g1 a h, g2 a h]
  · exact ⟨t1, h1, g1⟩

lemma nodeMetricsAndRules_facts (db : Db) (node : Node) (st : NodeStatusData)
    (now : Nat) (bc : Bool) :
    (nodeMetricsAndRules db node st now bc).1.nodes = db.nodes ∧
    ∃ t : List Alert,
      (nodeMetricsAndRules db node st now bc).1.alerts = db.alerts ++ t ∧
      ∀ a ∈ t, a.alert_type = "high_usage" := by
  unfold nodeMetricsAndRules
  dsimp only
  constructor
  · apply condEval_nodes
    apply condEval_nodes
    apply condEval_nodes
    rfl
  · apply condEval_alerts
    apply condEval_alerts
    apply condEval_alerts
    exact ⟨[], by simp, by simp⟩

lemma check_node_maintenance (db : Db) (n : Node) (o : NodeOutcome)
    (now : Nat) (bc : Bool) (h : n.maintenance_mode = true) :
    check_node db n o now bc = (db, [], "maintenance") := by
  unfold check_node; rw [if_pos h]

lemma check_node_connFail_facts (db : Db) (n : Node) (now : Nat) (bc : Bool)
    (h : n.maintenance_mode = false) :
    (check_node db n .connFail now bc).1.nodes
      = db.nodes.map (fun x => if x.id == n.id
          then { n with status := "offline", last_check := some now } else x) ∧
    (check_node db n .connFail now bc).1.alerts
      = db.alerts ++ (if n.status == "online"
          then [nodeDownAlert db.next_alert_id n now] else []) := by
  unfold check_node
  rw [if_neg (by simp [h])]
  dsimp only
  by_cases ho : (n.status == "online") = true
  · simp only [ho, if_true]
    exact ⟨rfl, rfl⟩
  · simp only [ho, Bool.false_eq_true, if_false]
    exact ⟨rfl, by rw [List.append_nil]; rfl⟩


lemma check_node_statusOk_facts (db : Db) (n : Node) (st : NodeStatusData)
    (now : Nat) (bc : Bool) (h : n.maintenance_mode = false) :
    (check_node db n (.statusOk st) now bc).1.nodes
      = db.nodes.map (fun x => if x.id == n.id
          then { n with status := st.status, last_check := some now } else x) ∧
    ∃ t : List Alert,
      (check_node db n (.statusOk st) now bc).1.alerts = db.alerts ++ t ∧
      ∀ a ∈ t, a.alert_type = "high_usage" := by
  unfold check_node
  rw [if_neg (by simp [h])]
  dsimp only
  by_cases ho : (st.status == "online") = true
  · simp only [ho, if_true]
    obtain ⟨hn, t, ha, hh⟩ := nodeMetricsAndRules_facts
      (db.updateNode { n with status := st.status, last_check := some now })
      n st now bc
    exact ⟨hn, t, ha, hh⟩
  · simp only [ho, Bool.false_eq_true, if_false]
    exact ⟨rfl, [], by rw [List.append_nil]; rfl, by simp⟩

lemma check_node_statusFail_facts (db : Db) (n : Node) (msg : String)
    (now : Nat) (bc : Bool) (h : n.maintenance_mode = false) :
    (check_node db n (.statusFail msg) now bc).1.nodes
      = db.nodes.map (fun x => if x.id == n.id
          then { n with status := "error", last_check := some now } else x) ∧
    (check_node db n (.statusFail msg) now bc).1.alerts = db.alerts := by
  unfold check_node
  rw [if_neg (by simp [h])]
  exact ⟨rfl, rfl⟩

lemma runNodeSeq_nil (db : Db) (nid : Nat) (now : Nat) (bc : Bool) :
    runNodeSeq db nid [] now bc = db := rfl

lemma runNodeSeq_cons (db : Db) (nid : Nat) (o : NodeOutcome)
    (os : List NodeOutcome) (now : Nat) (bc : Bool) (m : Node)
    (hm : db.nodes.find? (fun x => x.id == nid) = some m) :
    runNodeSeq db nid (o :: os) now bc
      = runNodeSeq (check_node db m o now bc).1 nid os now bc := by
  unfold runNodeSeq
  rw [List.foldl_cons]
  simp only [hm]

lemma find_singleton (m : Node) (nid : Nat) (h : m.id = nid) :
    [m].find? (fun x => x.id == nid) = some m := by
  simp [List.find?, h]

/-- C4: feeding one node the observation sequence
`[online, offline, offline, offline]` creates exactly one `node_down`
alert — on the online-to-offline transition — regardless of the rules,
pre-existing alerts, or other tables in the store. -/
theorem node_down_edge_trigger (db : Db) (n : Node) (st : NodeStatusData)
    (now : Nat) (bc : Bool)
    (h1 : db.nodes = [n]) (h2 : n.maintenance_mode = false)
    (h3 : st.status = "online") :
    countNodeDown (runNodeSeq db n.id
      [.statusOk st, .connFail, .connFail, .connFail] now bc).alerts n.id
      = countNodeDown db.alerts n.id + 1 := by
  obtain ⟨hn1, t1, ha1, hh1⟩ := check_node_statusOk_facts db n st now bc h2
  rw [runNodeSeq_cons db n.id _ _ now bc n (by rw [h1]; exact find_singleton n n.id rfl)]
  set d1 : Db := (check_node db n (.statusOk st) now bc).1 with hd1
  have hn1s : d1.nodes = [{ n with status := st.status, last_check := some now }] := by
    rw [hn1, h1]
    simp
  have hc1 : countNodeDown d1.alerts n.id = countNodeDown db.alerts n.id := by
    rw [ha1, countNodeDown_append, countNodeDown_highUsage t1 n.id hh1, Nat.add_zero]
  obtain ⟨hn2, ha2⟩ := check_node_connFail_facts d1
    { n with status := st.status, last_check := some now } now bc h2
  rw [runNodeSeq_cons d1 n.id _ _ now bc
    { n with status := st.status, last_check := some now }
    (by rw [hn1s]; exact find_singleton _ _ rfl)]
  set d2 : Db := (check_node d1
    { n with status := st.status, last_check := some now } .connFail now bc).1
    with hd2
  have hn2s : d2.nodes = [{ n with status := "offline", last_check := some now }] := by
    rw [hn2, hn1s]
    simp
  have hc2 : countNodeDown d2.alerts n.id = countNodeDown d1.alerts n.id + 1 := by
    rw [ha2, if_pos (by simp [h3]), countNodeDown_append]
    simp [countNodeDown, nodeDownAlert]
  obtain ⟨hn3, ha3⟩ := check_node_connFail_facts d2
    { n with status := "offline", last_check := some now } now bc h2
  rw [runNodeSeq_cons d2 n.id _ _ now bc
    { n with status := "offline", last_check := some now }
    (by rw [hn2s]; exact find_singleton _ _ rfl)]
  set d3 : Db := (check_node d2
    { n with status := "offline", last_check := some now } .connFail now bc).1
    with hd3
  have hn3s : d3.nodes = [{ n with status := "offline", last_check := some now }] := by
    rw [hn3, hn2s]
    simp
  have hc3 : countNodeDown d3.alerts n.id = countNodeDown d2.alerts n.id := by
    rw [ha3, if_neg (by simp), List.append_nil]
  obtain ⟨hn4, ha4⟩ := check_node_connFail_facts d3
    { n with status := "offline", last_check := some now } now bc h2
  rw [runNodeSeq_cons d3 n.id _ _ now bc
    { n with status := "offline", last_check := some now }
    (by rw [hn3s]; exact find_singleton _ _ rfl)]
  set d4 : Db := (check_node d3
    { n with status := "offline", last_check := some now } .connFail now bc).1
    with hd4
  have hc4 : countNodeDown d4.alerts n.id = countNodeDown d3.alerts n.id := by
    rw [ha4, if_neg (by simp), List.append_nil]
  rw [runNodeSeq_nil, hc4, hc3, hc2, hc1]

/-- A healthy active node fixture. -/
def nodeA : Node :=
  { id := 1, name := "pve1", url := "https://pve1:8006", username := "root@pam",
    token := "tok", is_active := true, maintenance_mode := false,
    status := "unknown", last_check := none }

/-- A store with just `nodeA`. -/
def dbNode : Db :=
  { nodes := [nodeA], vms := [], services := [], alerts := [], alert_rules := [],
    health_checks := [], metrics := [], webhooks := [], channels := [],
    next_alert_id := 1, next_vm_id := 1, next_hc_id := 1 }

/-- An `online` node status report. -/
def stOnline : NodeStatusData :=
  { status := "online", cpu_usage := some 10, memory_usage := some 20,
    disk_usage := some 30 }

/-- Witness for C4: the concrete sequence
`[online, offline, offline, offline]` yields exactly one `node_down`
alert for the node. -/
theorem node_down_edge_trigger_witness :
    countNodeDown (runNodeSeq dbNode 1
      [.statusOk stOnline, .connFail, .connFail, .connFail] 100 false).alerts 1
      = countNodeDown dbNode.alerts 1 + 1 :=
  node_down_edge_trigger dbNode nodeA stOnline 100 false rfl rfl rfl

/-! ## C2: per-tuple alert deduplication -/

/-- The unresolved alerts carrying one exact
`(alert_type, node_id, vm_id, service_id)` tuple. -/
def countUnresolvedTuple (alerts : List Alert) (ty : String)
    (nid vmid sid : Option Nat) : Nat :=
  (alerts.filter (fun a => a.alert_type == ty && a.is_resolved == false &&
    a.node_id == nid && a.vm_id == vmid && a.service_id == sid)).length

/-- Counterexample to C2 as stated: after the reachable poll sequence
`[online, offline, online, offline]` for node 1, the store holds TWO
unresolved `node_down` alerts with the identical tuple
`("node_down", node 1, -, -)` — `check_node` creates one on every
online-to-offline edge without checking for an existing unresolved
alert, and nothing in the scheduler resolves `node_down` alerts. -/
theorem alert_dedup_counterexample :
    countUnresolvedTuple (runNodeSeq dbNode 1
      [.statusOk stOnline, .connFail, .statusOk stOnline, .connFail]
      100 false).alerts "node_down" (some 1) none none = 2 := by decide

/-- C2 (amended): the rule-evaluation path and the `check_service` path
do honour the dedup rule — with an unresolved alert of the identical
tuple in the store they add no alert row; the `node_down` path in
`check_node` performs no such check (see the counterexample). -/
theorem alert_dedup_amended :
    (∀ (db : Db) (mt : String) (v : Rat) (nid vmid sid : Option Nat)
       (now : Nat) (bc : Bool),
      findExistingHighUsage db.alerts nid vmid sid ≠ none →
      (evaluate_alert_rules db mt v nid vmid sid now bc).1.alerts = db.alerts) ∧
    (∀ (db : Db) (s : Service) (result : CheckResult) (now : Nat) (bc : Bool),
      result.status = "down" →
      (∃ a ∈ db.alerts, a.alert_type = "service_down" ∧
        a.service_id = some s.id ∧ a.is_resolved = false) →
      (scheduler_check_service db s result now bc).1.alerts = db.alerts) := by
  constructor
  · intro db mt v nid vmid sid now bc h
    rw [evaluate_noop_of_existing db mt v nid vmid sid now bc h]
  · intro db s result now bc hd hex
    obtain ⟨a, hmem, hty, hsid, hres⟩ := hex
    unfold scheduler_check_service
    dsimp only
    rw [if_pos (by simp [hd])]
    cases hf : db.alerts.find?
        (fun x => x.service_id == some s.id && x.is_resolved == false) with
    | none =>
      exfalso
      have := List.find?_eq_none.mp hf a hmem
      simp [hsid, hres] at this
    | some a0 => simp only [hf]

/-- Witness for the amended C2: at the concrete stores with a duplicate
unresolved alert in place, neither path adds an alert row. -/
theorem alert_dedup_amended_witness :
    (evaluate_alert_rules dbDedup "cpu" 99 (some 7) none none 2000 false).1.alerts
      = dbDedup.alerts ∧
    (scheduler_check_service dbSvcDown svcWeb resDown 70 true).1.alerts
      = dbSvcDown.alerts := by
  constructor
  · exact alert_dedup_amended.1 dbDedup "cpu" 99 (some 7) none none 2000 false
      (by decide)
  · exact alert_dedup_amended.2 dbSvcDown svcWeb resDown 70 true rfl
      ⟨svcAlert, by decide, rfl, rfl, rfl⟩

/-! ## C1: maintenance mode -/

lemma vmMetricsAndRules_facts (db : Db) (node : Node) (vd : VmData)
    (mvid : Option Nat) (now : Nat) (bc : Bool) :
    (vmMetricsAndRules db node vd mvid now bc).1.nodes = db.nodes ∧
    ∃ t : List Alert,
      (vmMetricsAndRules db node vd mvid now bc).1.alerts = db.alerts ++ t ∧
      ∀ a ∈ t, a.alert_type = "high_usage" := by
  unfold vmMetricsAndRules
  dsimp only
  constructor
  · apply condEval_nodes
    apply condEval_nodes
    rfl
  · apply condEval_alerts
    apply condEval_alerts
    exact ⟨[], by simp, by simp⟩

lemma syncVmStep_facts (node : Node) (existing : List VM) (now : Nat)
    (bc : Bool) (acc : Db × List Eff) (vd : VmData) :
    (syncVmStep node existing now bc acc vd).1.nodes = acc.1.nodes ∧
    ∃ t : List Alert,
      (syncVmStep node existing now bc acc vd).1.alerts = acc.1.alerts ++ t ∧
      ∀ a ∈ t, a.alert_type = "high_usage" := by
  unfold syncVmStep
  cases existing.reverse.find? (fun vm => vm.vmid == vd.vmid) with
  | some vm0 =>
    dsimp only
    exact ⟨(vmMetricsAndRules_facts _ node vd _ now bc).1,
      (vmMetricsAndRules_facts _ node vd _ now bc).2⟩
  | none =>
    dsimp only
    exact ⟨(vmMetricsAndRules_facts _ node vd none now bc).1,
      (vmMetricsAndRules_facts _ node vd none now bc).2⟩

lemma syncFold_facts (node : Node) (existing : List VM) (now : Nat)
    (bc : Bool) (l : List VmData) :
    ∀ acc : Db × List Eff,
      (l.foldl (syncVmStep node existing now bc) acc).1.nodes = acc.1.nodes ∧
      ∃ t : List Alert,
        (l.foldl (syncVmStep node existing now bc) acc).1.alerts
          = acc.1.alerts ++ t ∧
        ∀ a ∈ t, a.alert_type = "high_usage" := by
  induction l with
  | nil => intro acc; exact ⟨rfl, [], by simp, by simp⟩
  | cons vd l ih =>
    intro acc
    rw [List.foldl_cons]
    obtain ⟨hn, t1, ha1, hh1⟩ := syncVmStep_facts node existing now bc acc vd
    obtain ⟨hn2, t2, ha2, hh2⟩ := ih (syncVmStep node existing now bc acc vd)
    refine ⟨hn2.trans hn, t1 ++ t2, ?_, fun a ha => ?_⟩
    · rw [ha2, ha1, List.append_assoc]
    · rcases List.mem_append.mp ha with h | h
      exacts [hh1 a h, hh2 a h]

/-- `sync_vms` never touches the node table and only ever appends
`high_usage` alerts (via rule evaluation on the VM metrics). -/
lemma sync_vms_facts (db : Db) (node : Node) (o : VmsOutcome) (now : Nat)
    (bc : Bool) :
    (sync_vms db node o now bc).1.nodes = db.nodes ∧
    ∃ t : List Alert,
      (sync_vms db node o now bc).1.alerts = db.alerts ++ t ∧
      ∀ a ∈ t, a.alert_type = "high_usage" := by
  cases o with
  | failure msg => exact ⟨rfl, [], by simp [sync_vms], by simp⟩
  | ok vms_data =>
    unfold sync_vms
    dsimp only
    exact syncFold_facts node _ now bc vms_data (db, [])

/-- Every invocation of `sync_vms` contacts the Proxmox endpoint: the
`get_vms` call is in its trace unconditionally. -/
lemma sync_vms_contacts (db : Db) (node : Node) (o : VmsOutcome) (now : Nat)
    (bc : Bool) :
    Eff.getVms node.id ∈ (sync_vms db node o now bc).2 := by
  cases o with
  | failure msg => simp [sync_vms]
  | ok vms_data =>
    unfold sync_vms
    dsimp only
    exact List.mem_append.mpr (Or.inl (List.mem_append.mpr (Or.inl (by simp))))

lemma map_ids_update (l : List Node) (nid : Nat) (n' : Node) (h : n'.id = nid) :
    (l.map (fun x => if x.id == nid then n' else x)).map (fun x => x.id)
      = l.map (fun x => x.id) := by
  induction l with
  | nil => rfl
  | cons x l ih =>
    simp only [List.map_cons, ih]
    by_cases hx : (x.id == nid) = true
    · rw [if_pos hx, h, (beq_iff_eq.mp hx)]
    · rw [if_neg hx]

lemma mem_update_of_ne (l : List Node) (m : Node) (nid : Nat) (n' : Node)
    (hm : m ∈ l) (hne : m.id ≠ nid) :
    m ∈ l.map (fun x => if x.id == nid then n' else x) := by
  exact List.mem_map.mpr ⟨m, hm, by simp [hne]⟩

lemma find?_nodup_mem (l : List Node) (m : Node) (hm : m ∈ l)
    (hn : (l.map (fun x => x.id)).Nodup) :
    l.find? (fun x => x.id == m.id) = some m := by
  induction l with
  | nil => cases hm
  | cons x l ih =>
    rw [List.map_cons, List.nodup_cons] at hn
    rcases List.mem_cons.mp hm with h | h
    · rw [h, List.find?_cons_of_pos _ (by simp)]
    · have hxne : x.id ≠ m.id := by
        intro he
        exact hn.1 (he ▸ List.mem_map_of_mem (fun y => y.id) h)
      rw [List.find?_cons_of_neg _ (by simp [hxne]), ih h hn.2]

/-- `check_node` preserves the multiset of node ids. -/
lemma check_node_ids (db : Db) (n : Node) (o : NodeOutcome) (now : Nat)
    (bc : Bool) :
    (check_node db n o now bc).1.nodes.map (fun x => x.id)
      = db.nodes.map (fun x => x.id) := by
  by_cases hm : n.maintenance_mode = true
  · rw [check_node_maintenance db n o now bc hm]
  · have hm' : n.maintenance_mode = false := by
      cases h : n.maintenance_mode
      · rfl
      · exact absurd h hm
    cases o with
    | connFail =>
      rw [(check_node_connFail_facts db n now bc hm').1,
        map_ids_update _ n.id _ (by rfl)]
    | statusOk st =>
      rw [(check_node_statusOk_facts db n st now bc hm').1,
        map_ids_update _ n.id _ (by rfl)]
    | statusFail msg =>
      rw [(check_node_statusFail_facts db n msg now bc hm').1,
        map_ids_update _ n.id _ (by rfl)]

/-- Alerts appended by one `check_node` call are `high_usage` rows or a
`node_down` row for the checked node itself. -/
lemma check_node_alerts_shape (db : Db) (n : Node) (o : NodeOutcome)
    (now : Nat) (bc : Bool) :
    ∃ t : List Alert,
      (check_node db n o now bc).1.alerts = db.alerts ++ t ∧
      ∀ a ∈ t, a.alert_type = "high_usage" ∨
        (a.alert_type = "node_down" ∧ a.node_id = some n.id) := by
  by_cases hm : n.maintenance_mode = true
  · rw [check_node_maintenance db n o now bc hm]
    exact ⟨[], by simp, by simp⟩
  · have hm' : n.maintenance_mode = false := by
      cases h : n.maintenance_mode
      · rfl
      · exact absurd h hm
    cases o with
    | connFail =>
      refine ⟨(if n.status == "online"
          then [nodeDownAlert db.next_alert_id n now] else []),
        (check_node_connFail_facts db n now bc hm').2, fun a ha => ?_⟩
      split_ifs at ha with hs
      · rcases List.mem_singleton.mp ha with rfl
        exact Or.inr ⟨rfl, rfl⟩
      · cases ha
    | statusOk st =>
      obtain ⟨t, ha, hh⟩ := (check_node_statusOk_facts db n st now bc hm').2
      exact ⟨t, ha, fun a h => Or.inl (hh a h)⟩
    | statusFail msg =>
      exact ⟨[], by rw [(check_node_statusFail_facts db n msg now bc hm').2]; simp,
        by simp⟩

/-- `check_node` keeps every other node record untouched. -/
lemma check_node_mem_preserved (db : Db) (n : Node) (o : NodeOutcome)
    (now : Nat) (bc : Bool) (m : Node) (hm : m ∈ db.nodes)
    (hcase : n.maintenance_mode = true ∨ m.id ≠ n.id) :
    m ∈ (check_node db n o now bc).1.nodes := by
  rcases hcase with hmaint | hne
  · rw [check_node_maintenance db n o now bc hmaint]
    exact hm
  · have hm' : n.maintenance_mode = false ∨ n.maintenance_mode = true := by
      cases n.maintenance_mode
      · exact Or.inl rfl
      · exact Or.inr rfl
    rcases hm' with hm' | hm'
    · cases o with
      | connFail =>
        rw [(check_node_connFail_facts db n now bc hm').1]
        exact mem_update_of_ne _ _ _ _ hm hne
      | statusOk st =>
        rw [(check_node_statusOk_facts db n st now bc hm').1]
        exact mem_update_of_ne _ _ _ _ hm hne
      | statusFail msg =>
        rw [(check_node_statusFail_facts db n msg now bc hm').1]
        exact mem_update_of_ne _ _ _ _ hm hne
    · rw [check_node_maintenance db n o now bc hm']
      exact hm

lemma nodeTick_step (no : Nat → NodeOutcome) (vo : Nat → VmsOutcome)
    (now : Nat) (bc : Bool) (m : Node) (hmm : m.maintenance_mode = true)
    (acc : Db × List Eff) (nid : Nat)
    (hmem : m ∈ acc.1.nodes)
    (hnodup : (acc.1.nodes.map (fun x => x.id)).Nodup) :
    (nodeTick no vo now bc acc nid).1.nodes.map (fun x => x.id)
        = acc.1.nodes.map (fun x => x.id) ∧
    m ∈ (nodeTick no vo now bc acc nid).1.nodes ∧
    (∃ t : List Alert, (nodeTick no vo now bc acc nid).1.alerts
        = acc.1.alerts ++ t ∧
      ∀ a ∈ t, a.alert_type = "node_down" → a.node_id ≠ some m.id) ∧
    (∃ e : List Eff, (nodeTick no vo now bc acc nid).2 = acc.2 ++ e) := by
  unfold nodeTick
  cases hf : acc.1.nodes.find? (fun x => x.id == nid) with
  | none => exact ⟨rfl, hmem, ⟨[], by simp, by simp⟩, ⟨[], by simp⟩⟩
  | some n =>
    dsimp only
    have hnmem : n ∈ acc.1.nodes := List.mem_of_find?_eq_some hf
    obtain ⟨hsn, ts, has, hhs⟩ := sync_vms_facts
      (check_node acc.1 n (no nid) now bc).1 n (vo nid) now bc
    have hids : (sync_vms (check_node acc.1 n (no nid) now bc).1 n (vo nid)
        now bc).1.nodes.map (fun x => x.id) = acc.1.nodes.map (fun x => x.id) := by
      rw [hsn, check_node_ids]
    by_cases hmaint : n.maintenance_mode = true
    · have hcn := check_node_maintenance acc.1 n (no nid) now bc hmaint
      refine ⟨hids, ?_, ⟨ts, ?_, ?_⟩, ⟨(check_node acc.1 n (no nid) now bc).2.1
        ++ (sync_vms (check_node acc.1 n (no nid) now bc).1 n (vo nid) now bc).2,
        by rw [List.append_assoc]⟩⟩
      · rw [hsn, hcn]
        exact hmem
      · rw [has, hcn]
      · intro a ha hty
        have := hhs a ha
        rw [this] at hty
        exact absurd hty (by decide)
    · have hmaint' : n.maintenance_mode = false := by
        cases h : n.maintenance_mode
        · rfl
        · exact absurd h hmaint
      have hne : m.id ≠ n.id := by
        intro he
        have : m = n := List.inj_on_of_nodup_map hnodup hmem hnmem he
        rw [this, hmaint'] at hmm
        cases hmm
      obtain ⟨tc, hac, hhc⟩ := check_node_alerts_shape acc.1 n (no nid) now bc
      refine ⟨hids, ?_, ⟨tc ++ ts, ?_, ?_⟩, ⟨(check_node acc.1 n (no nid) now bc).2.1
        ++ (sync_vms (check_node acc.1 n (no nid) now bc).1 n (vo nid) now bc).2,
        by rw [List.append_assoc]⟩⟩
      · rw [hsn]
        exact check_node_mem_preserved acc.1 n (no nid) now bc m hmem (Or.inr hne)
      · rw [has, hac, List.append_assoc]
      · intro a ha hty
        rcases List.mem_append.mp ha with h | h
        · rcases hhc a h with hh | ⟨-, hid⟩
          · rw [hh] at hty
            exact absurd hty (by decide)
          · rw [hid]
            intro hc
            exact hne (Option.some.inj hc).symm
        · have := hhs a h
          rw [this] at hty
          exact absurd hty (by decide)

lemma nodeTickFold_invariant (no : Nat → NodeOutcome) (vo : Nat → VmsOutcome)
    (now : Nat) (bc : Bool) (m : Node) (hmm : m.maintenance_mode = true) :
    ∀ (ids : List Nat) (acc : Db × List Eff),
      m ∈ acc.1.nodes → (acc.1.nodes.map (fun x => x.id)).Nodup →
      ((ids.foldl (nodeTick no vo now bc) acc).1.nodes.map (fun x => x.id)
          = acc.1.nodes.map (fun x => x.id) ∧
       m ∈ (ids.foldl (nodeTick no vo now bc) acc).1.nodes ∧
       (∃ t : List Alert, (ids.foldl (nodeTick no vo now bc) acc).1.alerts
           = acc.1.alerts ++ t ∧
         ∀ a ∈ t, a.alert_type = "node_down" → a.node_id ≠ some m.id) ∧
       (∃ e : List Eff,
         (ids.foldl (nodeTick no vo now bc) acc).2 = acc.2 ++ e)) := by
  intro ids
  induction ids with
  | nil =>
    intro acc hmem hnodup
    exact ⟨rfl, hmem, ⟨[], by simp, by simp⟩, ⟨[], by simp⟩⟩
  | cons nid ids ih =>
    intro acc hmem hnodup
    rw [List.foldl_cons]
    obtain ⟨hids, hmem2, ⟨t1, ha1, hq1⟩, e1, he1⟩ :=
      nodeTick_step no vo now bc m hmm acc nid hmem hnodup
    obtain ⟨hids2, hmem3, ⟨t2, ha2, hq2⟩, e2, he2⟩ :=
      ih (nodeTick no vo now bc acc nid) hmem2 (by rw [hids]; exact hnodup)
    refine ⟨hids2.trans hids, hmem3, ⟨t1 ++ t2, ?_, fun a ha hty => ?_⟩,
      ⟨e1 ++ e2, ?_⟩⟩
    · rw [ha2, ha1, List.append_assoc]
    · rcases List.mem_append.mp ha with h | h
      exacts [hq1 a h hty, hq2 a h hty]
    · rw [he2, he1, List.append_assoc]

/-- C1 (amended): a maintenance-mode node is never polled by `check_node`
— the call is a complete no-op returning the "maintenance" marker — and
a scheduler tick (`run_node_checks`) never creates a `node_down` alert
for it; however, the tick still calls `sync_vms` for every active node,
maintenance or not, which DOES contact the node's Proxmox endpoint
(`get_vms`), so the "never polled" half of the original claim fails. -/
theorem maintenance_mode_amended :
    (∀ (db : Db) (n : Node) (o : NodeOutcome) (now : Nat) (bc : Bool),
      n.maintenance_mode = true →
      check_node db n o now bc = (db, [], "maintenance")) ∧
    (∀ (db : Db) (m : Node) (no : Nat → NodeOutcome) (vo : Nat → VmsOutcome)
       (now : Nat) (bc : Bool),
      m ∈ db.nodes → m.maintenance_mode = true →
      (db.nodes.map (fun x => x.id)).Nodup →
      ∀ a ∈ (run_node_checks db no vo now bc).1.alerts,
        a.alert_type = "node_down" → a.node_id = some m.id → a ∈ db.alerts) ∧
    (∀ (db : Db) (m : Node) (no : Nat → NodeOutcome) (vo : Nat → VmsOutcome)
       (now : Nat) (bc : Bool),
      m ∈ db.nodes → m.maintenance_mode = true → m.is_active = true →
      (db.nodes.map (fun x => x.id)).Nodup →
      Eff.getVms m.id ∈ (run_node_checks db no vo now bc).2) := by
  refine ⟨fun db n o now bc h => check_node_maintenance db n o now bc h, ?_, ?_⟩
  · intro db m no vo now bc hmem hmm hnodup a hamem hty hid
    obtain ⟨-, -, ⟨t, ha, hq⟩, -⟩ := nodeTickFold_invariant no vo now bc m hmm
      ((db.nodes.filter (fun n => n.is_active)).map (fun n => n.id)) (db, [])
      hmem hnodup
    rw [run_node_checks] at hamem
    rw [ha] at hamem
    rcases List.mem_append.mp hamem with h | h
    · exact h
    · exact absurd hid (hq a h hty)
  · intro db m no vo now bc hmem hmm hact hnodup
    have hmid : m.id ∈ (db.nodes.filter (fun n => n.is_active)).map (fun n => n.id) :=
      List.mem_map_of_mem _ (List.mem_filter.mpr ⟨hmem, by simp [hact]⟩)
    obtain ⟨l1, l2, hsplit⟩ := List.append_of_mem hmid
    rw [run_node_checks, hsplit, List.foldl_append, List.foldl_cons]
    obtain ⟨hids1, hmem1, -, -⟩ := nodeTickFold_invariant no vo now bc m hmm
      l1 (db, []) hmem hnodup
    set acc1 := l1.foldl (nodeTick no vo now bc) (db, []) with hacc1
    have hnodup1 : (acc1.1.nodes.map (fun x => x.id)).Nodup := by
      rw [hids1]; exact hnodup
    have hfind : acc1.1.nodes.find? (fun x => x.id == m.id) = some m :=
      find?_nodup_mem acc1.1.nodes m hmem1 hnodup1
    have hstep : Eff.getVms m.id ∈ (nodeTick no vo now bc acc1 m.id).2 := by
      unfold nodeTick
      rw [hfind]
      dsimp only
      refine List.mem_append.mpr (Or.inr ?_)
      exact sync_vms_contacts (check_node acc1.1 m (no m.id) now bc).1 m
        (vo m.id) now bc
    obtain ⟨-, -, -, e, he⟩ := nodeTickFold_invariant no vo now bc m hmm
      l2 (nodeTick no vo now bc acc1 m.id)
      (nodeTick_step no vo now bc m hmm acc1 m.id hmem1 hnodup1).2.1
      (by rw [(nodeTick_step no vo now bc m hmm acc1 m.id hmem1 hnodup1).1]
          exact hnodup1)
    rw [he]
    exact List.mem_append.mpr (Or.inl hstep)

/-- An active node in maintenance mode. -/
def nodeMaint : Node := { nodeA with maintenance_mode := true }

/-- A store with just `nodeMaint`. -/
def dbMaint : Db := { dbNode with nodes := [nodeMaint] }

/-- An old unresolved `node_down` alert for `nodeMaint`. -/
def oldDownAlert : Alert :=
  { id := 1, alert_type := "node_down", severity := "critical",
    title := "Node pve1 is offline", message := "Node pve1 is no longer responding",
    node_id := some 1, vm_id := none, service_id := none,
    is_resolved := false, resolved_at := none, created_at := 5 }

/-- `dbMaint` with that pre-existing alert. -/
def dbMaint2 : Db := { dbMaint with alerts := [oldDownAlert], next_alert_id := 2 }

/-- Counterexample to C1 as stated: a scheduler tick over a store with a
single active maintenance-mode node still contacts that node's Proxmox
endpoint — `run_node_checks` calls `sync_vms` unconditionally and
`sync_vms` has no maintenance guard, so `get_vms` appears in the trace. -/
theorem maintenance_mode_counterexample :
    nodeMaint.maintenance_mode = true ∧ nodeMaint.is_active = true ∧
    Eff.getVms nodeMaint.id ∈ (run_node_checks dbMaint
      (fun _ => .connFail) (fun _ => .ok []) 100 false).2 := by
  refine ⟨rfl, rfl, ?_⟩
  decide

/-- Witness for the amended C1 at a concrete store: the `check_node`
no-op, the no-new-`node_down`-alert guarantee applied to the
pre-existing alert, and the `get_vms` contact. -/
theorem maintenance_mode_amended_witness :
    check_node dbMaint nodeMaint .connFail 100 false
      = (dbMaint, [], "maintenance") ∧
    oldDownAlert ∈ dbMaint2.alerts ∧
    Eff.getVms 1 ∈ (run_node_checks dbMaint2
      (fun _ => .connFail) (fun _ => .ok []) 100 false).2 := by
  refine ⟨?_, ?_, ?_⟩
  · exact maintenance_mode_amended.1 dbMaint nodeMaint .connFail 100 false rfl
  · exact maintenance_mode_amended.2.1 dbMaint2 nodeMaint
      (fun _ => .connFail) (fun _ => .ok []) 100 false
      (by decide) rfl (by decide) oldDownAlert (by decide) rfl rfl
  · exact maintenance_mode_amended.2.2 dbMaint2 nodeMaint
      (fun _ => .connFail) (fun _ => .ok []) 100 false
      (by decide) rfl rfl (by decide)

end Monitorix
